import Mathlib

/-!
Shallow embedding of the ingestion core of the `dashboard-backend` repository
(FastAPI + SQLAlchemy + pydantic), covering:

* `src/shared/utils/name_resolver.py` (employee-name normalization/resolution),
* the pure helpers of `src/presentation/controllers/ingestion_controller.py`
  (shift derivation, duration/number parsing, validation, format detection,
  row-to-DTO parsing, and the chunked upload processing loop), and
* `src/application/services/ingestion_service.py` (dimension cache, batch
  writers, shift recomputation, deduplication queries),

together with theorems settling the frozen specification claims.  Python
strings are modelled as Lean `String`/`List Char`; Python `dict`s as
association lists with insert-or-overwrite semantics; the relational store as
in-memory lists of rows; exceptions as `Except`; database commit failures as
an explicit per-chunk failure schedule.
-/

set_option maxRecDepth 10000

/-! ## Python string primitives -/

/-- Characters matched by Python's `str.strip()` / `\s` (ASCII whitespace). -/
def isPySpace (c : Char) : Bool :=
  c = ' ' || c = '\t' || c = '\n' || c = '\r' || c = '\x0b' || c = '\x0c'

/-- Python `str.lstrip()` on a character list. -/
def pyStripLeft (l : List Char) : List Char := l.dropWhile isPySpace

/-- Python `str.rstrip()` on a character list. -/
def pyStripRight (l : List Char) : List Char :=
  (pyStripLeft l.reverse).reverse

/-- Python `str.strip()` on a character list. -/
def pyStripChars (l : List Char) : List Char := pyStripRight (pyStripLeft l)

/-- Python `str.strip()`. -/
def pyStrip (s : String) : String := ⟨pyStripChars s.data⟩

/-- Helper for `pySplitSep`: accumulates the current field (reversed). -/
def pySplitSepAux (sep : Char) : List Char → List Char → List String
  | [], acc => [⟨acc.reverse⟩]
  | c :: t, acc =>
    if c = sep then ⟨acc.reverse⟩ :: pySplitSepAux sep t []
    else pySplitSepAux sep t (c :: acc)

/-- Python `str.split(sep)` for a one-character separator: keeps empty
fields, and the empty string splits to `[""]`. -/
def pySplitSep (s : String) (sep : Char) : List String :=
  pySplitSepAux sep s.data []

/-- Helper for `pySplitWs`: whitespace-splitting with an accumulator. -/
def pySplitWsAux : List Char → List Char → List String
  | [], [] => []
  | [], acc => [⟨acc.reverse⟩]
  | c :: t, acc =>
    if isPySpace c then
      match acc with
      | [] => pySplitWsAux t []
      | _ => ⟨acc.reverse⟩ :: pySplitWsAux t []
    else pySplitWsAux t (c :: acc)

/-- Python `str.split()` with no argument: splits on whitespace runs and
drops empty fields. -/
def pySplitWs (s : String) : List String := pySplitWsAux s.data []

/-- Python `" ".join(words)`. -/
def joinSpace (ws : List String) : String := String.intercalate " " ws

/-- Everything before the first occurrence of `pat` in `l` (the whole list
when `pat` does not occur): Python `s.split(pat)[0]` for a non-empty `pat`. -/
def beforeFirst (pat : List Char) : List Char → List Char
  | [] => []
  | c :: t => if (c :: t).take pat.length = pat then [] else c :: beforeFirst pat t

/-- Python `sub in s` (substring containment) on character lists. -/
def containsSub (pat : List Char) : List Char → Bool
  | [] => pat.isEmpty
  | c :: t => (c :: t).take pat.length = pat || containsSub pat t

/-- Python `str.startswith` on strings. -/
def pyStartsWith (s pre : String) : Bool := s.data.take pre.data.length = pre.data

/-- Python `str.upper()` on one character, covering ASCII letters and the
Latin-1 accented letters appearing in this repository's data (the mapping of
U+00E0..U+00FE except the division sign to their uppercase forms). -/
def pyUpperChar (c : Char) : Char :=
  if 'a' ≤ c ∧ c ≤ 'z' then Char.ofNat (c.toNat - 32)
  else if 0xE0 ≤ c.toNat ∧ c.toNat ≤ 0xFE ∧ c.toNat ≠ 0xF7 then Char.ofNat (c.toNat - 32)
  else c

/-- Python `str.lower()` on one character (ASCII and Latin-1 letters). -/
def pyLowerChar (c : Char) : Char :=
  if 'A' ≤ c ∧ c ≤ 'Z' then Char.ofNat (c.toNat + 32)
  else if 0xC0 ≤ c.toNat ∧ c.toNat ≤ 0xDE ∧ c.toNat ≠ 0xD7 then Char.ofNat (c.toNat + 32)
  else c

/-- Python `str.upper()` on a character list. -/
def pyUpperChars (l : List Char) : List Char := l.map pyUpperChar

/-- Python `str.upper()`. -/
def pyUpper (s : String) : String := ⟨pyUpperChars s.data⟩

/-- Whether a character is cased for the purpose of Python `str.title()`
(ASCII and Latin-1 letters). -/
def pyIsCased (c : Char) : Bool :=
  ('a' ≤ c && c ≤ 'z') || ('A' ≤ c && c ≤ 'Z') ||
    (0xC0 ≤ c.toNat && c.toNat ≤ 0xFE && c.toNat ≠ 0xD7 && c.toNat ≠ 0xF7)

/-- Helper for `pyTitle`: the Boolean records whether the previous character
was cased. -/
def pyTitleAux : Bool → List Char → List Char
  | _, [] => []
  | prevCased, c :: t =>
    (if pyIsCased c then (if prevCased then pyLowerChar c else pyUpperChar c) else c)
      :: pyTitleAux (pyIsCased c) t

/-- Python `str.title()`: the first cased character of every run of cased
characters is uppercased, the rest lowercased. -/
def pyTitle (s : String) : String := ⟨pyTitleAux false s.data⟩

/-- Unicode NFKD decomposition followed by removal of combining marks, on one
character: maps each precomposed Latin-1 letter used in this repository's
data to its base letter and leaves every other character unchanged
(`unicodedata.normalize("NFKD", ...)` + dropping combining characters). -/
def stripAccentChar (c : Char) : Char :=
  match c with
  | 'á' | 'à' | 'â' | 'ã' | 'ä' | 'å' => 'a'
  | 'é' | 'è' | 'ê' | 'ë' => 'e'
  | 'í' | 'ì' | 'î' | 'ï' => 'i'
  | 'ó' | 'ò' | 'ô' | 'õ' | 'ö' => 'o'
  | 'ú' | 'ù' | 'û' | 'ü' => 'u'
  | 'ç' => 'c'
  | 'ñ' => 'n'
  | 'ý' | 'ÿ' => 'y'
  | 'Á' | 'À' | 'Â' | 'Ã' | 'Ä' | 'Å' => 'A'
  | 'É' | 'È' | 'Ê' | 'Ë' => 'E'
  | 'Í' | 'Ì' | 'Î' | 'Ï' => 'I'
  | 'Ó' | 'Ò' | 'Ô' | 'Õ' | 'Ö' => 'O'
  | 'Ú' | 'Ù' | 'Û' | 'Ü' => 'U'
  | 'Ç' => 'C'
  | 'Ñ' => 'N'
  | 'Ý' => 'Y'
  | _ => c

/-- Accent stripping on a character list. -/
def stripAccents (l : List Char) : List Char := l.map stripAccentChar

/-! ## Python `int` / decimal parsing -/

/-- Decimal value of a digit list (most significant first). -/
def digitsVal (l : List Char) : Nat :=
  l.foldl (fun a c => 10 * a + (c.toNat - '0'.toNat)) 0

/-- Python `int(s)` on a plain decimal string: optional surrounding
whitespace, optional sign, then one or more digits; everything else raises
`ValueError`, modelled as `none`.  (CPython additionally accepts digit-group
underscores, which do not occur in this repository's data.) -/
def pyIntParse (s : String) : Option Int :=
  match pyStripChars s.data with
  | [] => none
  | c :: t =>
    if c = '+' then
      if t ≠ [] ∧ t.all Char.isDigit then some (digitsVal t : Int) else none
    else if c = '-' then
      if t ≠ [] ∧ t.all Char.isDigit then some (-(digitsVal t : Int)) else none
    else if (c :: t).all Char.isDigit then some (digitsVal (c :: t) : Int) else none

/-- An exact decimal value `num / 10 ^ scale`, modelling the Python floats
this pipeline produces (all are finite decimals parsed from the data; no
float rounding is observable in the modelled code paths).  Plain integer
representation keeps every operation kernel-reducible. -/
structure DecVal where
  num : Int
  scale : Nat
deriving DecidableEq

/-- Negation of a decimal value. -/
def DecVal.neg (d : DecVal) : DecVal := ⟨-d.num, d.scale⟩

/-- Order on decimal values by cross-multiplication. -/
def DecVal.leB (a b : DecVal) : Bool := a.num * (10 ^ b.scale : Nat) ≤ b.num * (10 ^ a.scale : Nat)

/-- Python `float(s)` on a plain decimal literal (optional sign, digits with
an optional decimal point, at least one digit overall); other inputs raise
`ValueError`, modelled as `none`.  Exponent forms, `inf` and `nan` do not
occur in this repository's data and are out of scope.  The result is the
exact decimal value. -/
def pyFloatParse (s : String) : Option DecVal :=
  let l := pyStripChars s.data
  let core : List Char → Option DecVal := fun l =>
    match pySplitSepAux '.' l [] with
    | [a] =>
      if a.data ≠ [] ∧ a.data.all Char.isDigit then some ⟨digitsVal a.data, 0⟩ else none
    | [a, b] =>
      if (a.data ≠ [] ∨ b.data ≠ []) ∧ a.data.all Char.isDigit ∧ b.data.all Char.isDigit then
        some ⟨digitsVal a.data * (10 ^ b.data.length : Nat) + digitsVal b.data, b.data.length⟩
      else none
    | _ => none
  match l with
  | '+' :: t => core t
  | '-' :: t => (core t).map DecVal.neg
  | t => core t

/-- Python `int(q)` applied to a float: truncation toward zero. -/
def pyTrunc (q : DecVal) : Int := q.num.tdiv ((10 ^ q.scale : Nat) : Int)

/-! ## Python `dict` as an association list -/

/-- Python `d[k] = v`: overwrite in place when the key is present (keeping
its original position), append otherwise. -/
def dictUpdate (d : List (String × α)) (k : String) (v : α) : List (String × α) :=
  if d.any (fun p => p.1 = k) then
    d.map (fun p => if p.1 = k then (k, v) else p)
  else d ++ [(k, v)]

/-- Python `dict(pairs)` / a dict literal: later occurrences of a key
overwrite earlier ones. -/
def dictOf (ps : List (String × α)) : List (String × α) :=
  ps.foldl (fun d p => dictUpdate d p.1 p.2) []

/-- Python `d.get(k)` (`None` when absent). -/
def dictGet? (d : List (String × α)) (k : String) : Option α :=
  (d.find? (fun p => p.1 = k)).map (fun p => p.2)

/-- Python `d.get(k, default)`. -/
def dictGetD (d : List (String × α)) (k : String) (dflt : α) : α :=
  (dictGet? d k).getD dflt

/-! ## Name resolver (`src/shared/utils/name_resolver.py`) -/

/-- Whether a character list fully matches the regular expression
`\s*-?\s*\d{4,5}\s*` (the trailing-extension pattern of
`name_resolver._normalizar`): optional whitespace, an optional dash, optional
whitespace, four or five digits, optional trailing whitespace. -/
def matchNumSuffix (l : List Char) : Bool :=
  let l1 := l.dropWhile isPySpace
  let l2 := match l1 with
    | '-' :: t => t.dropWhile isPySpace
    | _ => l1
  let digits := l2.takeWhile Char.isDigit
  let rest := l2.drop digits.length
  (digits.length = 4 || digits.length = 5) && rest.all isPySpace

/-- Python `re.sub(r'\s*-?\s*\d{4,5}\s*$', '', nome)`: removes the suffix
starting at the leftmost position whose remainder matches the anchored
pattern; leaves the string unchanged when no suffix matches. -/
def reSubNumSuffix : List Char → List Char
  | [] => []
  | c :: t => if matchNumSuffix (c :: t) then [] else c :: reSubNumSuffix t

/-- Model of `name_resolver._normalizar`: strip a trailing extension-number
suffix, strip surrounding whitespace, decompose and drop accents, uppercase,
and collapse internal whitespace runs to single spaces. -/
def nrNormalizar (nome : String) : String :=
  let base := pyStripChars (reSubNumSuffix nome.data)
  joinSpace (pySplitWs ⟨pyUpperChars (stripAccents base)⟩)

/-- The `COLABORADORES_SAC` dict literal of `name_resolver.py`, as the source
writes it: the list of key/value pairs in source order.  Note that the key
"Giselle Almeida Rodrigues Da Silva" occurs twice (once with the truncation
variants, once with an empty list); Python dict-literal semantics keep only
the later, empty entry. -/
def COLABORADORES_SAC : List (String × List String) :=
  [ ("Placido Junior",
      ["Plácido Júnior", "PLÁCIDO JÚNIOR",
       "Placido Portal De Sousa Junior", "PLACIDO PORTAL DE SOUSA JUNIOR"]),
    ("Marcia Regina Ventura Rodrigues",
      ["MARCIA REGINA VENTURA RODRIGUE", "Marcia Regina Ventura Rodrigue"]),
    ("Plinio Vinicius Ryu Miyata Koiama",
      ["PLINIO VINICIUS RYU MIYATA KOI", "Plinio Vinicius Ryu Miyata Koi"]),
    ("Giselle Almeida Rodrigues Da Silva",
      ["GISELLE ALMEIDA RODRIGUES DA S", "Giselle Almeida Rodrigues Da S"]),
    ("Ana Beatriz De Oliveira Franco", []),
    ("Ana Carolina Ribeiro Miranda", []),
    ("Carlos Cesar Soares Junior", []),
    ("Daniele De Araujo Rodrigues", []),
    ("Eliezer Abner Paggi Oliveira", []),
    ("Gabriel Tavares Dos Santos", []),
    ("Giovana Virginia Ferreira De Amorim", []),
    ("Giovanna Alves Aranega", []),
    ("Giselle Almeida Rodrigues Da Silva", []),
    ("Giselma Caldeira Goncalves", []),
    ("Gustavo Andrade Da Silva", []),
    ("Gustavo Lanza", []),
    ("Hagatta Thaynara De Freitas Martins", []),
    ("Heros Henrique Delecrode", []),
    ("Joao Pedro Cavani Meireles", []),
    ("Joao Pedro Da Silva Pereira", []),
    ("Julio Augusto Bueno Mariano", []),
    ("Lauanda Lisboa Vaz", []),
    ("Luana Vitoria Da Silva Lima", []),
    ("Lucas Da Rocha Silva", []),
    ("Luiz Bonfa Dos Santos", []),
    ("Marcus Vinicius Mendes Jacomel", []),
    ("Matheus Mazali Maeda", []),
    ("Maycon Lins De Oliveira", []),
    ("Pedro Emanuel Ferreira De Andrade", []),
    ("Pedro Paulo Santos De Oliveira Mansur De Carvalho", []),
    ("Pietro Pasqual Silva", []),
    ("Queise Elen Santos Santana", []),
    ("Rebecca De Assis Nezio", []),
    ("Ricardo De Oliveira Geraldo", []),
    ("Ricardo Luciano De Araujo", []),
    ("Rodrigo Pereira Alves Timotio Junior", []),
    ("Roselene Patricio De Souza", []),
    ("Vitor Eduardo Bueno De Oliveira", []),
    ("Vitor Nercessian", []),
    ("Wellington Silva De Souza", []) ]

/-- The `_RESOLVER` dict of `name_resolver.py`: built from the runtime value
of the `COLABORADORES_SAC` dict (duplicate-key entries already collapsed),
mapping each normalized canonical to itself and each normalized variant to
its normalized canonical. -/
def RESOLVER : List (String × String) :=
  (dictOf COLABORADORES_SAC).foldl
    (fun r p =>
      let ck := nrNormalizar p.1
      let r1 := dictUpdate r ck ck
      p.2.foldl (fun r2 v => dictUpdate r2 (nrNormalizar v) ck) r1)
    []

/-- Model of `resolver_nome`: normalize, then look the key up in `_RESOLVER`,
falling back to the normalized key itself. -/
def resolver_nome (nome : String) : String :=
  let chave := nrNormalizar nome
  dictGetD RESOLVER chave chave

/-- Model of `is_sac`: whether the normalized name is a key of `_RESOLVER`. -/
def is_sac (nome : String) : Bool :=
  (dictGet? RESOLVER (nrNormalizar nome)).isSome

/-! ## Dates and datetimes -/

/-- A Python `datetime.datetime` (naive, second precision). -/
structure PyDateTime where
  year : Nat
  month : Nat
  day : Nat
  hour : Nat
  minute : Nat
  second : Nat
deriving DecidableEq

/-- A Python `datetime.date`. -/
structure PyDate where
  year : Nat
  month : Nat
  day : Nat
deriving DecidableEq

/-- The `date()` of a datetime. -/
def PyDateTime.toDate (dt : PyDateTime) : PyDate := ⟨dt.year, dt.month, dt.day⟩

/-- Gregorian leap-year rule. -/
def isLeap (y : Nat) : Bool := (y % 4 = 0 && y % 100 ≠ 0) || y % 400 = 0

/-- Days in a month of the Gregorian calendar. -/
def daysInMonth (y m : Nat) : Nat :=
  if m = 2 then (if isLeap y then 29 else 28)
  else if m = 4 ∨ m = 6 ∨ m = 9 ∨ m = 11 then 30
  else 31

/-- Strict calendar order on dates. -/
def dateLt (a b : PyDate) : Bool :=
  a.year < b.year ||
    (a.year = b.year && (a.month < b.month || (a.month = b.month && a.day < b.day)))

/-- The day after `d` (`d + timedelta(days=1)`). -/
def nextDay (d : PyDate) : PyDate :=
  if d.day < daysInMonth d.year d.month then ⟨d.year, d.month, d.day + 1⟩
  else if d.month < 12 then ⟨d.year, d.month + 1, 1⟩
  else ⟨d.year + 1, 1, 1⟩

/-- Construction of a `datetime` value with the range validation Python's
constructor performs (month 1..12, day within the month, time fields in
range, year at least `MINYEAR`). -/
def mkDateTimeChecked (y mo d h mi s : Nat) : Option PyDateTime :=
  if 1 ≤ y ∧ 1 ≤ mo ∧ mo ≤ 12 ∧ 1 ≤ d ∧ d ≤ daysInMonth y mo ∧
      h ≤ 23 ∧ mi ≤ 59 ∧ s ≤ 59 then
    some ⟨y, mo, d, h, mi, s⟩
  else none

/-- Consume one or two leading digits (greedily). -/
def take2Digits : List Char → Option (Nat × List Char)
  | a :: b :: t =>
    if a.isDigit then
      if b.isDigit then some (digitsVal [a, b], t) else some (digitsVal [a], b :: t)
    else none
  | [a] => if a.isDigit then some (digitsVal [a], []) else none
  | [] => none

/-- Consume exactly four leading digits. -/
def take4Digits : List Char → Option (Nat × List Char)
  | a :: b :: c :: d :: t =>
    if a.isDigit && b.isDigit && c.isDigit && d.isDigit then
      some (digitsVal [a, b, c, d], t)
    else none
  | _ => none

/-- Consume one expected literal character. -/
def expectChar (c : Char) : List Char → Option (List Char)
  | x :: t => if x = c then some t else none
  | [] => none

/-- Consume a non-empty whitespace run (a literal space in an `strptime`
format matches one or more whitespace characters). -/
def skipWs1 (l : List Char) : Option (List Char) :=
  match l with
  | c :: t => if isPySpace c then some (t.dropWhile isPySpace) else none
  | [] => none

/-- Model of `datetime.strptime(s, "%d/%m/%Y %H:%M:%S")`: day and month as
one or two digits, four-digit year, time components of one or two digits,
full-string match, with the `datetime` range validation; a parse failure
(Python `ValueError`) is `none`. -/
def parseDateTimeBR (s : String) : Option PyDateTime := do
  let (d, l) ← take2Digits s.data
  let l ← expectChar '/' l
  let (mo, l) ← take2Digits l
  let l ← expectChar '/' l
  let (y, l) ← take4Digits l
  let l ← skipWs1 l
  let (h, l) ← take2Digits l
  let l ← expectChar ':' l
  let (mi, l) ← take2Digits l
  let l ← expectChar ':' l
  let (sec, l) ← take2Digits l
  if l = [] then mkDateTimeChecked y mo d h mi sec else none

/-- Model of `datetime.strptime(s, "%Y-%m-%d").date()` (used for the
`data_voalle` form field). -/
def parseDateISO (s : String) : Option PyDate := do
  let (y, l) ← take4Digits s.data
  let l ← expectChar '-' l
  let (mo, l) ← take2Digits l
  let l ← expectChar '-' l
  let (d, l) ← take2Digits l
  if l = [] then (mkDateTimeChecked y mo d 0 0 0).map PyDateTime.toDate else none

/-! ## Controller constants and helpers (`ingestion_controller.py`) -/

/-- Chunk size of the upload processing loop. -/
def CHUNK_SIZE : Nat := 6000

/-- Required department/queue marker. -/
def SETOR_PREFIXO : String := "SAC"

/-- Minimum accepted reference date. -/
def DATA_MINIMA : PyDate := ⟨2020, 1, 1⟩

/-- Maximum accepted duration in seconds (24 hours). -/
def TEMPO_MAXIMO_SEGUNDOS : Int := 86400

/-- Model of `calcular_turno`: the four fixed shift bands over the hour of a
datetime. -/
def calcular_turno (dt : PyDateTime) : String :=
  if dt.hour ≤ 5 then "Madrugada"
  else if 6 ≤ dt.hour ∧ dt.hour ≤ 11 then "Manhã"
  else if 12 ≤ dt.hour ∧ dt.hour ≤ 17 then "Tarde"
  else "Noite"

/-- Model of `parse_time_to_seconds`: `""`/`"-"` (after stripping) map to 0;
three colon-separated fields are hours/minutes/seconds; two are
minutes/seconds; any other shape or any `int` conversion failure yields 0.
The function is total: no input raises. -/
def parse_time_to_seconds (time_str : String) : Int :=
  if time_str = "" ∨ pyStrip time_str = "-" ∨ pyStrip time_str = "" then 0
  else
    match pySplitSep (pyStrip time_str) ':' with
    | [a, b, c] =>
      match pyIntParse a, pyIntParse b, pyIntParse c with
      | some x, some y, some z => x * 3600 + y * 60 + z
      | _, _, _ => 0
    | [a, b] =>
      match pyIntParse a, pyIntParse b with
      | some x, some y => x * 60 + y
      | _, _ => 0
    | _ => 0

/-- Model of the controller's `normalizar_nome`: strip accents, uppercase,
collapse internal whitespace. -/
def normalizar_nome (nome : String) : String :=
  joinSpace (pySplitWs ⟨pyUpperChars (stripAccents nome.data)⟩)

/-- Model of `clean_agent_name`: the empty string yields the literal
placeholder "Desconhecido"; otherwise the part before the first " - " is
stripped and normalized. -/
def clean_agent_name (name : String) : String :=
  if name = "" then "Desconhecido"
  else normalizar_nome ⟨pyStripChars (beforeFirst " - ".data name.data)⟩

/-- Model of `safe_int`: `None`, empty, or `"-"` yield 0; otherwise the
value with commas replaced by dots is parsed as a float and truncated toward
zero, parse failures yielding 0. -/
def safe_int (value : Option String) : Int :=
  match value with
  | none => 0
  | some s =>
    if s = "" || pyStrip s = "-" then 0
    else
      match pyFloatParse ⟨s.data.map (fun c => if c = ',' then '.' else c)⟩ with
      | some q => pyTrunc q
      | none => 0

/-- The clamp bound 999.99 of `safe_float_or_none`. -/
def CLAMP_MAX : DecVal := ⟨99999, 2⟩

/-- Python `min(a, b)` on decimal values. -/
def pyMinQ (a b : DecVal) : DecVal := if DecVal.leB a b then a else b

/-- Python `max(a, b)` on decimal values. -/
def pyMaxQ (a b : DecVal) : DecVal := if DecVal.leB b a then a else b

/-- Model of `safe_float_or_none`: `None`, empty, or `"-"` yield `None`;
otherwise the comma-to-dot value is parsed and clamped into
`[-999.99, 999.99]`, parse failures yielding `None`. -/
def safe_float_or_none (value : Option String) : Option DecVal :=
  match value with
  | none => none
  | some s =>
    if s = "" || pyStrip s = "-" then none
    else
      match pyFloatParse ⟨s.data.map (fun c => if c = ',' then '.' else c)⟩ with
      | some q => some (pyMaxQ (DecVal.neg CLAMP_MAX) (pyMinQ CLAMP_MAX q))
      | none => none

/-- Validation errors of `validar_data` / `validar_tempo`.  The source
renders localized messages; only which error fires is semantically
relevant, so messages are modelled as tags. -/
inductive ValErr
  | dataAnterior (d : PyDate)
  | dataFutura (d : PyDate)
  | tempoExcede (tipo : String) (segundos : Int)
  | dataFormato (texto : String)
  | maisLinhas
deriving DecidableEq

/-- Model of `validar_data` (on the date part of the value): before
`DATA_MINIMA`, or after tomorrow relative to `today`, is an error. -/
def validar_data (today : PyDate) (d : PyDate) : Option ValErr :=
  if dateLt d DATA_MINIMA then some (ValErr.dataAnterior d)
  else if dateLt (nextDay today) d then some (ValErr.dataFutura d)
  else none

/-- Model of `validar_tempo`: durations above 24 hours are an error. -/
def validar_tempo (segundos : Int) (tipo : String) : Option ValErr :=
  if segundos > TEMPO_MAXIMO_SEGUNDOS then some (ValErr.tempoExcede tipo segundos) else none

/-- Model of `is_setor_permitido`: blank values pass; otherwise the stripped
uppercased value must start with "SAC". -/
def is_setor_permitido (valor : String) : Bool :=
  if valor = "" || pyStrip valor = "" then true
  else pyStartsWith (pyUpper (pyStrip valor)) SETOR_PREFIXO

/-- Model of `detect_format`: returns
`(is_voalle_agregado, is_omnichannel, is_ligacao)` from the header list. -/
def detect_format (headers : List String) : Bool × Bool × Bool :=
  let headersUpper := headers.map pyUpper
  let isVoalle := ["CA", "NA", "NSF"].all (fun h => headersUpper.contains h)
  let isOmni := headers.contains "Nome do Atendente" || headers.contains "Tempo em Espera na Fila"
  let isLig := headers.contains "Data de início" && headers.contains "Sentido"
  (isVoalle, isOmni, isLig)

/-! ## Rows and import schemas -/

/-- A CSV/XLSX row as the controller sees it: a header-to-value mapping
(values already stripped by the reading code). -/
abbrev Row := List (String × String)

/-- Python `row.get(k)`. -/
def rowGet? (r : Row) (k : String) : Option String :=
  (r.find? (fun p => p.1 = k)).map (fun p => p.2)

/-- Python `row.get(k) or d`: a missing key or an empty value falls back to
the default (only `""` is falsy among strings). -/
def rowOr (r : Row) (k d : String) : String :=
  match rowGet? r k with
  | some v => if v = "" then d else v
  | none => d

/-- Python `row.get(k) or None`. -/
def rowOrNone (r : Row) (k : String) : Option String :=
  match rowGet? r k with
  | some v => if v = "" then none else some v
  | none => none

/-- Model of `VoalleAgregadoImportSchema` (pydantic): the declared fields. -/
structure VoalleAgregadoImportSchema where
  data_referencia : PyDate
  colaborador_nome : String
  clientes_atendidos : Int
  numero_atendimentos : Int
  solicitacao_finalizada : Int
deriving DecidableEq

/-- Pydantic validation of `VoalleAgregadoImportSchema`: the three count
fields carry `ge=0`. -/
def mkVoalleSchema (dr : PyDate) (nome : String) (ca na nsf : Int) :
    Except String VoalleAgregadoImportSchema :=
  if ca ≥ 0 ∧ na ≥ 0 ∧ nsf ≥ 0 then Except.ok ⟨dr, nome, ca, na, nsf⟩
  else Except.error "ValidationError: valor negativo"

/-- Model of `AtendimentoTransacionalImportSchema` (pydantic): exactly the
fields the class declares.  Note that the class declares NO `turno` field. -/
structure AtendimentoTransacionalImportSchema where
  data_referencia : PyDateTime
  colaborador_nome : String
  equipe : Option String
  canal_nome : String
  status_nome : String
  protocolo : Option String
  sentido_interacao : Option String
  tempo_espera_segundos : Int
  tempo_atendimento_segundos : Int
  nota_solucao : Option DecVal
  nota_atendimento : Option DecVal
deriving DecidableEq

/-- The keyword arguments `parse_row_to_dto` passes to
`AtendimentoTransacionalImportSchema(...)` (controller lines 289-302 and
309-322), including the computed `turno=` keyword. -/
structure TransKwargs where
  data_referencia : PyDateTime
  turno : String
  colaborador_nome : String
  equipe : Option String
  canal_nome : String
  status_nome : String
  protocolo : Option String
  sentido_interacao : Option String
  tempo_espera_segundos : Int
  tempo_atendimento_segundos : Int
  nota_solucao : Option DecVal
  nota_atendimento : Option DecVal

/-- Pydantic construction of `AtendimentoTransacionalImportSchema` from the
keyword arguments of the call sites: the two duration fields are validated
(`ge=0`); the `turno` keyword matches no declared field and is silently
dropped by pydantic's default `extra='ignore'` configuration, so the
resulting object stores no shift label. -/
def validateTransSchema (k : TransKwargs) : Except String AtendimentoTransacionalImportSchema :=
  if k.tempo_espera_segundos ≥ 0 ∧ k.tempo_atendimento_segundos ≥ 0 then
    Except.ok ⟨k.data_referencia, k.colaborador_nome, k.equipe, k.canal_nome,
      k.status_nome, k.protocolo, k.sentido_interacao, k.tempo_espera_segundos,
      k.tempo_atendimento_segundos, k.nota_solucao, k.nota_atendimento⟩
  else Except.error "ValidationError: tempo negativo"

/-- A parsed DTO: one of the two import schemas. -/
inductive ParsedDto
  | voalle (d : VoalleAgregadoImportSchema)
  | trans (d : AtendimentoTransacionalImportSchema)
deriving DecidableEq

/-- Model of `parse_row_to_dto`.  `Except.error` models a raised exception
(strptime `ValueError`, pydantic `ValidationError`, the voalle assertion, or
the unrecognized-format `ValueError`); `Except.ok none` models the `return
None` department-filter skips; `now` stands for `datetime.now()`. -/
def parse_row_to_dto (now : PyDateTime) (row : Row)
    (isVoalle isOmni isLig : Bool) (voalleDataRef : Option PyDate) :
    Except String (Option ParsedDto) :=
  if isVoalle then
    match voalleDataRef with
    | none => Except.error "AssertionError"
    | some dref =>
      (mkVoalleSchema dref
        (clean_agent_name (pyStrip (rowOr row "Atendente" "Desconhecido")))
        (safe_int (rowGet? row "CA"))
        (safe_int (rowGet? row "NA"))
        (safe_int (rowGet? row "NSF"))).map (fun d => some (ParsedDto.voalle d))
  else if isOmni then
    let equipeRaw := pyStrip (rowOr row "Nome da Equipe" "")
    if ¬ is_setor_permitido equipeRaw then Except.ok none
    else
      let dataInicial := pyStrip (rowOr row "Data Inicial" "")
      let horaInicial := pyStrip (rowOr row "Hora Inicial" "")
      let dataStr := pyStrip (dataInicial ++ " " ++ horaInicial)
      let dataRef? : Except String PyDateTime :=
        if dataStr = "" then Except.ok now
        else match parseDateTimeBR dataStr with
          | some dt => Except.ok dt
          | none => Except.error "ValueError: strptime"
      match dataRef? with
      | Except.error e => Except.error e
      | Except.ok dataRef =>
        (validateTransSchema
          { data_referencia := dataRef
            turno := calcular_turno dataRef
            colaborador_nome := clean_agent_name (pyStrip (rowOr row "Nome do Atendente" "Desconhecido"))
            equipe := if equipeRaw = "" then none else some equipeRaw
            canal_nome := "WhatsApp"
            status_nome := pyStrip (rowOr row "Status" "Desconhecido")
            protocolo := rowOrNone row "Número do Protocolo"
            sentido_interacao := none
            tempo_espera_segundos := parse_time_to_seconds (rowOr row "Tempo em Espera na Fila" "")
            tempo_atendimento_segundos := parse_time_to_seconds (rowOr row "Tempo em Atendimento" "")
            nota_solucao := safe_float_or_none (rowGet? row "Avaliação - Nota da Solução Oferecida")
            nota_atendimento := safe_float_or_none (rowGet? row "Avaliação - Nota do Atendimento Prestado")
          }).map (fun d => some (ParsedDto.trans d))
  else if isLig then
    let filaRaw := pyStrip (rowOr row "Fila" "")
    if ¬ is_setor_permitido filaRaw then Except.ok none
    else
      let dataInicio := pyStrip (rowOr row "Data de início" "")
      match parseDateTimeBR dataInicio with
      | none => Except.error "ValueError: strptime"
      | some dataRef =>
        (validateTransSchema
          { data_referencia := dataRef
            turno := calcular_turno dataRef
            colaborador_nome := clean_agent_name (pyStrip (rowOr row "Agente" "Desconhecido"))
            equipe := if filaRaw = "" then none else some filaRaw
            canal_nome := "Ligação"
            status_nome := pyStrip (rowOr row "Status" "Desconhecido")
            protocolo := rowOrNone row "Protocolo"
            sentido_interacao := rowOrNone row "Sentido"
            tempo_espera_segundos := parse_time_to_seconds (rowOr row "Espera" "")
            tempo_atendimento_segundos := parse_time_to_seconds (rowOr row "Atendimento" "")
            nota_solucao := none
            nota_atendimento := safe_float_or_none (rowGet? row "Avaliação 1")
          }).map (fun d => some (ParsedDto.trans d))
  else Except.error "ValueError: formato não reconhecido"

/-- Per-row validation errors of the pre-validation pass (without the cap
logic): empty dates are skipped; an unparsable date is one error; an
out-of-range date is one error; otherwise each of the two durations above
24h is an error. -/
def preValidRowErrs (today : PyDate) (isOmni isLig : Bool) (row : Row) : List ValErr :=
  if ¬ (isOmni ∨ isLig) then []
  else
  let dataStrRaw :=
    if isOmni then pyStrip (rowOr row "Data Inicial" "")
    else pyStrip (rowOr row "Data de início" "")
  if dataStrRaw = "" then []
  else
    let dataCompleta :=
      if isOmni then pyStrip (dataStrRaw ++ " " ++ pyStrip (rowOr row "Hora Inicial" ""))
      else dataStrRaw
    match parseDateTimeBR dataCompleta with
    | none => [ValErr.dataFormato dataCompleta]
    | some dt =>
      match validar_data today dt.toDate with
      | some e => [e]
      | none =>
        let te :=
          if isOmni then parse_time_to_seconds (rowOr row "Tempo em Espera na Fila" "")
          else parse_time_to_seconds (rowOr row "Espera" "")
        let ta :=
          if isOmni then parse_time_to_seconds (rowOr row "Tempo em Atendimento" "")
          else parse_time_to_seconds (rowOr row "Atendimento" "")
        (validar_tempo te "espera").toList ++ (validar_tempo ta "atendimento").toList

/-- Accumulating loop of `pre_validar_planilha`: stops with a trailing
marker once five errors have been collected. -/
def preValidarAux (today : PyDate) (isOmni isLig : Bool) :
    List Row → Nat → List (Nat × ValErr) → List (Nat × ValErr)
  | [], _, acc => acc
  | row :: rest, idx, acc =>
    if acc.length ≥ 5 then acc ++ [(idx, ValErr.maisLinhas)]
    else preValidarAux today isOmni isLig rest (idx + 1)
      (acc ++ (preValidRowErrs today isOmni isLig row).map (fun e => (idx, e)))

/-- Model of `pre_validar_planilha`: no checks for the voalle format;
otherwise the per-row date/duration checks with the five-error cap.  Errors
are `(line, error)` pairs (the source renders them as localized strings). -/
def pre_validar_planilha (today : PyDate) (rows : List Row)
    (isVoalle isOmni isLig : Bool) : List (Nat × ValErr) :=
  if isVoalle then [] else preValidarAux today isOmni isLig rows 1 []

/-! ## Relational store (`models.py`) -/

/-- A `dim_colaboradores` row. -/
structure DimColaborador where
  id : Nat
  nome : String
  equipe : Option String
  turno : Option String
deriving DecidableEq

/-- A `dim_canais` / `dim_status` row (serial id, unique name). -/
structure DimSimple where
  id : Nat
  nome : String
deriving DecidableEq

/-- A `fato_atendimentos` row. -/
structure FatoAtendimento where
  data_referencia : PyDateTime
  turno : String
  protocolo : Option String
  sentido_interacao : Option String
  tempo_espera_segundos : Int
  tempo_atendimento_segundos : Int
  nota_solucao : Option DecVal
  nota_atendimento : Option DecVal
  colaborador_id : Nat
  canal_id : Nat
  status_id : Nat
deriving DecidableEq

/-- A `fato_voalle_diario` row. -/
structure FatoVoalleDiario where
  data_referencia : PyDate
  clientes_atendidos : Int
  numero_atendimentos : Int
  solicitacao_finalizada : Int
  colaborador_id : Nat
deriving DecidableEq

/-- The column names `models.Upload` actually declares
(models.py lines 113-122). -/
def uploadDeclaredCols : List String :=
  ["id", "file_path", "status", "created_at", "processed_at", "error"]

/-- An upload-ledger record as the CONTROLLER manipulates it.  Note:
`models.Upload` declares only the columns in `uploadDeclaredCols`; the
controller nevertheless passes `file_hash=` to the constructor and assigns
`total_registros` / `total_duplicados`, attributes absent from the mapped
model (see the hash-guard theorems).  They are carried here so the ledger
writes can be expressed as written. -/
structure UploadRec where
  id : Nat
  file_path : String
  file_hash : String
  status : Option String
  created_at : Option PyDateTime
  processed_at : Option PyDateTime
  error : Option String
  total_registros : Option Nat
  total_duplicados : Option Nat
deriving DecidableEq

/-- The relational store: the five tables plus serial-id counters for the
dimension tables. -/
structure Store where
  colaboradores : List DimColaborador
  canais : List DimSimple
  statusDim : List DimSimple
  fatos : List FatoAtendimento
  fatosVoalle : List FatoVoalleDiario
  uploads : List UploadRec
  nextColabId : Nat
  nextCanalId : Nat
  nextStatusId : Nat
deriving DecidableEq

/-! ## Ingestion service (`ingestion_service.py`) -/

/-- The in-memory dimension cache of `_build_dim_cache` /
`_flush_new_dims`. -/
structure DimCache where
  colaboradores : List (String × DimColaborador)
  canais : List (String × DimSimple)
  statusCache : List (String × DimSimple)

/-- Model of `_build_dim_cache`: employees keyed by resolved name, channels
and statuses by raw name (later table rows overwrite earlier cache keys, as
in a Python dict comprehension). -/
def _build_dim_cache (st : Store) : DimCache :=
  { colaboradores := dictOf (st.colaboradores.map (fun c => (resolver_nome c.nome, c)))
    canais := dictOf (st.canais.map (fun c => (c.nome, c)))
    statusCache := dictOf (st.statusDim.map (fun s => (s.nome, s))) }

/-- A staged `dim_colaboradores` insert (the dict
`{"nome": ..., "equipe": ...}` of the staging loop). -/
structure NewColab where
  nome : String
  equipe : String
deriving DecidableEq

/-- Bulk insert of staged employees.  `dim_colaboradores` has no unique
constraint, so `on_conflict_do_nothing` never suppresses a row: every staged
dict becomes a new row with a fresh serial id. -/
def insertColaboradores (st : Store) (newCols : List NewColab) : Store :=
  newCols.foldl
    (fun s nc =>
      { s with
        colaboradores := s.colaboradores ++ [⟨s.nextColabId, nc.nome, some nc.equipe, none⟩]
        nextColabId := s.nextColabId + 1 })
    st

/-- Bulk insert of staged channel names: `dim_canais.nome` is unique, so
`on_conflict_do_nothing` drops names that already exist. -/
def insertCanais (st : Store) (newNames : List String) : Store :=
  newNames.foldl
    (fun s n =>
      if s.canais.any (fun c => c.nome = n) then s
      else { s with canais := s.canais ++ [⟨s.nextCanalId, n⟩], nextCanalId := s.nextCanalId + 1 })
    st

/-- Bulk insert of staged status names (unique `nome`, conflicts dropped). -/
def insertStatus (st : Store) (newNames : List String) : Store :=
  newNames.foldl
    (fun s n =>
      if s.statusDim.any (fun c => c.nome = n) then s
      else { s with statusDim := s.statusDim ++ [⟨s.nextStatusId, n⟩], nextStatusId := s.nextStatusId + 1 })
    st

/-- Model of `_flush_new_dims`: insert the staged rows (uncommitted flush),
then refresh the cache by re-reading every row whose name is among the
staged names, keyed as in `_build_dim_cache`. -/
def _flush_new_dims (st : Store) (cache : DimCache) (newCols : List NewColab)
    (newCanais newStatus : List String) : Store × DimCache :=
  let st1 := insertColaboradores st newCols
  let st2 := insertCanais st1 newCanais
  let st3 := insertStatus st2 newStatus
  let cacheCols :=
    (st3.colaboradores.filter (fun c => newCols.any (fun r => r.nome = c.nome))).foldl
      (fun d c => dictUpdate d (resolver_nome c.nome) c) cache.colaboradores
  let cacheCanais :=
    (st3.canais.filter (fun c => newCanais.contains c.nome)).foldl
      (fun d c => dictUpdate d c.nome c) cache.canais
  let cacheStatus :=
    (st3.statusDim.filter (fun s => newStatus.contains s.nome)).foldl
      (fun d s => dictUpdate d s.nome s) cache.statusCache
  (st3, ⟨cacheCols, cacheCanais, cacheStatus⟩)

/-- The grouped query of `_atualizar_turno_colaboradores`:
`(colaborador_id, turno, count)` rows for facts of the given employees, in
first-occurrence order of the `(colaborador_id, turno)` pair. -/
def groupTurnoCounts (fatos : List FatoAtendimento) (ids : List Nat) :
    List (Nat × String × Nat) :=
  let rel := fatos.filter (fun f => ids.contains f.colaborador_id)
  rel.foldl
    (fun acc f =>
      if acc.any (fun g => g.1 = f.colaborador_id ∧ g.2.1 = f.turno) then acc
      else acc ++
        [(f.colaborador_id, f.turno,
          (rel.filter (fun f2 => f2.colaborador_id = f.colaborador_id ∧ f2.turno = f.turno)).length)])
    []

/-- One step of the per-employee selection dict of
`_atualizar_turno_colaboradores`: keep a group when no entry exists yet or
its count is STRICTLY greater than the current one (ties keep the
first-seen group). -/
def turnoStep (d : List (Nat × String × Nat)) (g : Nat × String × Nat) :
    List (Nat × String × Nat) :=
  match d.find? (fun p => p.1 = g.1) with
  | none => d ++ [g]
  | some p => if g.2.2 > p.2.2 then d.map (fun q => if q.1 = g.1 then g else q) else d

/-- The per-employee selection dict of `_atualizar_turno_colaboradores`. -/
def turnoPorColaborador (resultado : List (Nat × String × Nat)) :
    List (Nat × String × Nat) :=
  resultado.foldl turnoStep []

/-- Model of `_atualizar_turno_colaboradores`: group the persisted facts of
the given employees by shift, pick the strictly-most-frequent shift per
employee (first-seen on ties), and update each employee row. -/
def _atualizar_turno_colaboradores (st : Store) (ids : List Nat) : Store :=
  if ids = [] then st
  else
    let escolha := turnoPorColaborador (groupTurnoCounts st.fatos ids)
    { st with
      colaboradores := st.colaboradores.map (fun c =>
        match escolha.find? (fun p => p.1 = c.id) with
        | some p => { c with turno := some p.2.1 }
        | none => c) }

/-- Structural worker for `chunksOf`: `acc` holds the current chunk in
reverse. -/
def chunksOfGo (n : Nat) : List α → List α → List (List α)
  | [], acc => match acc with | [] => [] | _ :: _ => [acc.reverse]
  | x :: t, acc =>
    if n ≤ acc.length + 1 then (acc.reverse ++ [x]) :: chunksOfGo n t []
    else chunksOfGo n t (x :: acc)

/-- Splitting a list into successive chunks of at most `n` elements
(`n > 0`; `n = 0` yields no chunks). -/
def chunksOf (n : Nat) (l : List α) : List (List α) :=
  match n with
  | 0 => []
  | _ + 1 => chunksOfGo n l []

/-- Model of `carregar_protocolos_existentes`: drop blank protocols, query
the fact table in batches of 500, and collect the non-empty persisted
protocol values found. -/
def carregar_protocolos_existentes (st : Store) (protocolos : List String) : List String :=
  let limpos := protocolos.filter (fun p => ¬ (p = "" ∨ pyStrip p = ""))
  (chunksOf 500 limpos).foldl
    (fun acc lote =>
      acc ++ st.fatos.filterMap (fun f =>
        match f.protocolo with
        | some q => if lote.contains q ∧ q ≠ "" then some q else none
        | none => none))
    []

/-- Model of `carregar_voalle_existentes`: the employee ids already recorded
for the given reference date. -/
def carregar_voalle_existentes (st : Store) (dataRef : PyDate) : List Nat :=
  (st.fatosVoalle.filter (fun f => f.data_referencia = dataRef)).map
    (fun f => f.colaborador_id)

/-- Model of `verificar_hash_duplicado`.  The query the source writes
filters on `models.Upload.file_hash` and on status "success"/"warning"; but
`models.Upload` declares no `file_hash` column, so evaluating that class
attribute raises `AttributeError` before any query runs.  The definition
keeps both readings: the intended Boolean is returned only if the column is
among the declared ones, which it is not. -/
def verificar_hash_duplicado (uploads : List UploadRec) (fileHash : String) :
    Except String Bool :=
  if uploadDeclaredCols.contains "file_hash" then
    Except.ok (uploads.any (fun u =>
      u.file_hash = fileHash ∧ (u.status = some "success" ∨ u.status = some "warning")))
  else Except.error "AttributeError: a classe Upload não tem o atributo file_hash"

/-! ## Batch writers -/

/-- Result dict of the batch writers. -/
structure BatchResult where
  success_count : Nat
  error_count : Nat
  duplicate_count : Nat
  ignorados_count : Nat
  errors : List (Nat × String)
  nomes_sem_match : List String
  nomes_ignorados : List String
deriving DecidableEq

/-- Outcome of one batch call: a normal return with the committed store, or
a raised `RuntimeError` after rollback (the store reverts to its entry
state, undoing the uncommitted dimension flushes of the batch). -/
inductive BatchOut
  | ok (res : BatchResult) (st : Store)
  | raised (st : Store)
deriving DecidableEq

/-- `data.equipe or "SAC"`: `None` and the empty string fall back. -/
def equipeOrSAC (e : Option String) : String :=
  match e with
  | some v => if v = "" then "SAC" else v
  | none => "SAC"

/-- Staged dimension values of the first loop of
`process_transacional_batch`. -/
structure StagedDims where
  nomesSemMatch : List String
  newCols : List NewColab
  newCanais : List String
  newStatus : List String

/-- Model of the staging loop (ingestion_service.py lines 191-209): every
value missing from the cache is staged once. -/
def stageNewDims (cache : DimCache)
    (registros : List AtendimentoTransacionalImportSchema) : StagedDims :=
  registros.foldl
    (fun acc data =>
      let nomeKey := resolver_nome data.colaborador_nome
      let acc :=
        if (dictGet? cache.colaboradores nomeKey).isNone then
          { acc with
            nomesSemMatch :=
              if acc.nomesSemMatch.contains data.colaborador_nome then acc.nomesSemMatch
              else acc.nomesSemMatch ++ [data.colaborador_nome]
            newCols :=
              if acc.newCols.any (fun r => resolver_nome r.nome = nomeKey) then acc.newCols
              else acc.newCols ++ [⟨pyTitle nomeKey, equipeOrSAC data.equipe⟩] }
        else acc
      let acc :=
        if (dictGet? cache.canais data.canal_nome).isNone ∧
            ¬ acc.newCanais.contains data.canal_nome then
          { acc with newCanais := acc.newCanais ++ [data.canal_nome] }
        else acc
      if (dictGet? cache.statusCache data.status_nome).isNone ∧
          ¬ acc.newStatus.contains data.status_nome then
        { acc with newStatus := acc.newStatus ++ [data.status_nome] }
      else acc)
    ⟨[], [], [], []⟩

/-- The message of the `ValueError` raised when a dimension is missing from
the cache after `_flush_new_dims`. -/
def dimNaoEncontrada : String := "ValueError: Dimensão não encontrada no cache após inserção."

/-- The message of the attribute access `data.turno` at
ingestion_service.py line 236: `AtendimentoTransacionalImportSchema`
declares no `turno` field (pydantic's default `extra='ignore'` dropped the
`turno=` keyword at construction), so building the fact dict raises
`AttributeError` for every row that reaches it, before any fact row can be
assembled. -/
def attributeErrTurno : String :=
  "AttributeError: o objeto AtendimentoTransacionalImportSchema não tem o atributo turno"

/-- Outcome of one row of the fact loop of `process_transacional_batch`. -/
inductive TransRowOut
  | dup
  | err (msg : String)
deriving DecidableEq

/-- Model of the per-row try block (ingestion_service.py lines 216-253):
protocol dedup against the preloaded set first; then the three cache
lookups, a miss raising `ValueError`; a row that resolves all three
dimensions then evaluates `data.turno` in the fact dict, which raises
`AttributeError` (see `attributeErrTurno`), so no row ever reaches the
`fatos_para_inserir.append` / `success_count += 1` statements. -/
def transRowStep (cache : DimCache) (protocolosBanco : List String)
    (data : AtendimentoTransacionalImportSchema) : TransRowOut :=
  if (match data.protocolo with
      | some p => p ≠ "" && protocolosBanco.contains p
      | none => false) then
    TransRowOut.dup
  else
    match dictGet? cache.colaboradores (resolver_nome data.colaborador_nome),
          dictGet? cache.canais data.canal_nome,
          dictGet? cache.statusCache data.status_nome with
    | some _, some _, some _ => TransRowOut.err attributeErrTurno
    | _, _, _ => TransRowOut.err dimNaoEncontrada

/-- Accumulator of the fact loop: mirrors the loop-local variables
(`success_count`, `error_count`, `duplicate_count`, `erros`,
`fatos_para_inserir`, `colaborador_ids_afetados`); the last three
success-path variables never grow because every surviving row raises at the
`data.turno` access. -/
structure TransAcc where
  i : Nat
  success : Nat
  errorC : Nat
  dup : Nat
  erros : List (Nat × String)
  colabIds : List Nat
  fatosIns : List FatoAtendimento

/-- Model of `process_transacional_batch`: build the cache, stage and flush
new dimensions, run the fact loop, then insert the collected facts, update
shifts and commit as one transaction; `commitFails` models a storage
failure in that final block, which rolls everything (including the flushed
dimensions) back and raises `RuntimeError`. -/
def process_transacional_batch (st : Store)
    (registros : List AtendimentoTransacionalImportSchema)
    (protocolosBanco : List String) (commitFails : Bool) : BatchOut :=
  let cache := _build_dim_cache st
  let staged := stageNewDims cache registros
  let flushed := _flush_new_dims st cache staged.newCols staged.newCanais staged.newStatus
  let acc := registros.foldl
    (fun (acc : TransAcc) data =>
      match transRowStep flushed.2 protocolosBanco data with
      | TransRowOut.dup => { acc with i := acc.i + 1, dup := acc.dup + 1 }
      | TransRowOut.err m =>
        { acc with i := acc.i + 1, errorC := acc.errorC + 1, erros := acc.erros ++ [(acc.i, m)] })
    ⟨1, 0, 0, 0, [], [], []⟩
  if commitFails then BatchOut.raised st
  else
    BatchOut.ok
      { success_count := acc.success
        error_count := acc.errorC
        duplicate_count := acc.dup
        ignorados_count := 0
        errors := acc.erros.take 10
        nomes_sem_match := staged.nomesSemMatch
        nomes_ignorados := [] }
      (_atualizar_turno_colaboradores
        { flushed.1 with fatos := flushed.1.fatos ++ acc.fatosIns } acc.colabIds)

/-- The fixed block-list of system/bot sender substrings of
`process_voalle_batch`. -/
def voalleBlockList : List String := ["SYNTESIS", "TOTAL GERAL", "OLIVIA BOT"]

/-- Whether a raw voalle sender name contains a block-listed substring
(checked on the uppercased name). -/
def isBlockedVoalleName (nome : String) : Bool :=
  voalleBlockList.any (fun skip => containsSub skip.data (pyUpper nome).data)

/-- Accumulator of the voalle row loop: the store grows as employees are
inserted and flushed mid-loop. -/
structure VoalleAcc where
  st : Store
  cache : List (String × DimColaborador)
  idsJa : List Nat
  i : Nat
  success : Nat
  errorC : Nat
  dup : Nat
  ignorC : Nat
  erros : List (Nat × String)
  nomesIgnorados : List String
  fatosIns : List FatoVoalleDiario

/-- Model of one row of `process_voalle_batch` (lines 306-367): block-list
skip, SAC-membership skip, employee resolution with on-the-fly creation,
(employee, date) dedup, then staging of the aggregate fact row. -/
def voalleRowStep (acc : VoalleAcc) (data : VoalleAgregadoImportSchema) : VoalleAcc :=
  let nomeRaw := data.colaborador_nome
  if isBlockedVoalleName nomeRaw then
    { acc with i := acc.i + 1, ignorC := acc.ignorC + 1 }
  else if ¬ is_sac nomeRaw then
    { acc with
      i := acc.i + 1
      ignorC := acc.ignorC + 1
      nomesIgnorados := acc.nomesIgnorados ++ [nomeRaw] }
  else
    let nomeKey := resolver_nome nomeRaw
    let resolved : Store × List (String × DimColaborador) × Option DimColaborador :=
      match dictGet? acc.cache nomeKey with
      | some c => (acc.st, acc.cache, some c)
      | none =>
        let stIns := insertColaboradores acc.st [⟨pyTitle nomeKey, "SAC"⟩]
        match (stIns.colaboradores.filter (fun c => c.nome = pyTitle nomeKey)).head? with
        | some c => (stIns, dictUpdate acc.cache nomeKey c, some c)
        | none => (stIns, acc.cache, none)
    match resolved.2.2 with
    | none =>
      { acc with
        st := resolved.1
        cache := resolved.2.1
        i := acc.i + 1
        errorC := acc.errorC + 1
        erros := acc.erros ++ [(acc.i, "colaborador não pode ser criado")] }
    | some colab =>
      if acc.idsJa.contains colab.id then
        { acc with st := resolved.1, cache := resolved.2.1, i := acc.i + 1, dup := acc.dup + 1 }
      else
        { acc with
          st := resolved.1
          cache := resolved.2.1
          i := acc.i + 1
          success := acc.success + 1
          idsJa := acc.idsJa ++ [colab.id]
          fatosIns := acc.fatosIns ++
            [⟨data.data_referencia, data.clientes_atendidos, data.numero_atendimentos,
              data.solicitacao_finalizada, colab.id⟩] }

/-- The row loop of `process_voalle_batch`: the SAC-only employee cache and
the fold over the rows.  Exposed separately because the controller passes
its `voalle_existentes` set by reference, so the set mutations of the loop
(survived even when the commit later fails) must be recoverable. -/
def voalleLoopAcc (st : Store) (registros : List VoalleAgregadoImportSchema)
    (voalleExistentes : List Nat) : VoalleAcc :=
  let cacheInit := dictOf
    ((st.colaboradores.filter (fun c => c.equipe = some "SAC")).map
      (fun c => (resolver_nome c.nome, c)))
  registros.foldl voalleRowStep
    { st := st
      cache := cacheInit
      idsJa := voalleExistentes
      i := 1
      success := 0
      errorC := 0
      dup := 0
      ignorC := 0
      erros := []
      nomesIgnorados := []
      fatosIns := [] }

/-- Model of `process_voalle_batch`: the row loop of `voalleLoopAcc`, then
the bulk insert of staged aggregate facts and the commit; `commitFails`
rolls everything (including mid-loop employee inserts) back and raises
`RuntimeError`. -/
def process_voalle_batch (st : Store) (registros : List VoalleAgregadoImportSchema)
    (voalleExistentes : List Nat) (commitFails : Bool) : BatchOut :=
  let acc := voalleLoopAcc st registros voalleExistentes
  if commitFails then BatchOut.raised st
  else
    BatchOut.ok
      { success_count := acc.success
        error_count := acc.errorC
        duplicate_count := acc.dup
        ignorados_count := acc.ignorC
        errors := acc.erros.take 10
        nomes_sem_match := []
        nomes_ignorados := acc.nomesIgnorados }
      { acc.st with fatosVoalle := acc.st.fatosVoalle ++ acc.fatosIns }

/-! ## Upload processing stage (`upload_csv`, controller lines 415-603) -/

/-- The `detalhes` dict of the endpoint response. -/
structure UploadDetalhes where
  formato : String
  totalLinhas : Nat
  success_count : Nat
  ignored_count : Nat
  duplicate_count : Nat
  error_count : Nat
  errors : List (Nat × String)
deriving DecidableEq

/-- Outcome of the processing stage: an `HTTPException` 400/422 rejection
(ledger marked error by the `except HTTPException` handler), an internal
500 (generic handler), or the normal JSON response. -/
inductive UploadOutcome
  | badRequest (motivo : String) (st : Store)
  | serverError (st : Store)
  | resposta (status : String) (detalhes : UploadDetalhes) (st : Store)
deriving DecidableEq

/-- Update of the ledger record with the given id. -/
def updateUpload (st : Store) (uid : Nat) (f : UploadRec → UploadRec) : Store :=
  { st with uploads := st.uploads.map (fun u => if u.id = uid then f u else u) }

/-- Rendering of collected error messages for the ledger `error` field (the
source joins the first `n` as "; "-separated strings with line prefixes;
only presence is semantically relevant downstream). -/
def renderErrs (n : Nat) (l : List (Nat × String)) : String :=
  String.intercalate "; " ((l.take n).map (fun e => e.2))

/-- State of the processing loop of `upload_csv` (lines 492-536): the
store, the controller's `voalle_existentes` set object, the seen-protocol
set, the pending chunk, the flush-attempt counter (indexing the failure
schedule), the four counters, the capped error list, and the 1-based row
index. -/
structure LoopAcc where
  st : Store
  vex : List Nat
  vistos : List String
  chunkTrans : List AtendimentoTransacionalImportSchema
  chunkVoalle : List VoalleAgregadoImportSchema
  flushIdx : Nat
  totalSuccess : Nat
  totalError : Nat
  totalIgnorados : Nat
  totalDuplicados : Nat
  allErrors : List (Nat × String)
  i : Nat

/-- Model of `flush_chunk` for a transactional chunk.  The Boolean reports
whether the batch raised `RuntimeError`: in that case the chunk list is NOT
cleared (the `chunk = []` reset is unreachable after the raise) and no
counters are updated. -/
def flushChunkTrans (failAt : Nat → Bool) (protocolosBanco : List String)
    (acc : LoopAcc) : LoopAcc × Bool :=
  if acc.chunkTrans = [] then (acc, false)
  else
    match process_transacional_batch acc.st acc.chunkTrans protocolosBanco
        (failAt acc.flushIdx) with
    | BatchOut.ok res st' =>
      ({ acc with
         st := st'
         flushIdx := acc.flushIdx + 1
         totalSuccess := acc.totalSuccess + res.success_count
         totalError := acc.totalError + res.error_count
         totalDuplicados := acc.totalDuplicados + res.duplicate_count
         allErrors := acc.allErrors ++ res.errors
         chunkTrans := [] }, false)
    | BatchOut.raised st' => ({ acc with st := st', flushIdx := acc.flushIdx + 1 }, true)

/-- Model of `flush_chunk` for a voalle chunk.  The controller's
`voalle_existentes` set is passed by reference and mutated by the batch
loop, but only when it was non-empty (`voalle_existentes or set()` replaces
an empty set by a fresh one); the mutations survive even when the commit
fails. -/
def flushChunkVoalle (failAt : Nat → Bool) (acc : LoopAcc) : LoopAcc × Bool :=
  if acc.chunkVoalle = [] then (acc, false)
  else
    let accV := voalleLoopAcc acc.st acc.chunkVoalle acc.vex
    let vex' := if acc.vex = [] then [] else accV.idsJa
    match process_voalle_batch acc.st acc.chunkVoalle acc.vex (failAt acc.flushIdx) with
    | BatchOut.ok res st' =>
      ({ acc with
         st := st'
         vex := vex'
         flushIdx := acc.flushIdx + 1
         totalSuccess := acc.totalSuccess + res.success_count
         totalError := acc.totalError + res.error_count
         totalDuplicados := acc.totalDuplicados + res.duplicate_count
         allErrors := acc.allErrors ++ res.errors
         chunkVoalle := [] }, false)
    | BatchOut.raised st' =>
      ({ acc with st := st', vex := vex', flushIdx := acc.flushIdx + 1 }, true)

/-- The `RuntimeError` messages of the two batch writers. -/
def erroLoteTrans : String := "RuntimeError: Erro ao inserir lote no banco de dados."

/-- The voalle batch `RuntimeError` message. -/
def erroLoteVoalle : String := "RuntimeError: Erro ao inserir lote Voalle no banco de dados."

/-- One iteration of the row loop (lines 514-534): parse, skip, dedup,
chunk append, and the in-loop flush.  The surrounding `except Exception`
catches BOTH parse errors and a `RuntimeError` escaping the IN-LOOP
`flush_chunk()` call, counting either as one row error (capped at 20
messages) and continuing. -/
def uploadRowStep (now : PyDateTime) (failAt : Nat → Bool)
    (isVoalle isOmni isLig : Bool) (voalleDataRef : Option PyDate)
    (protocolosBanco : List String) (acc : LoopAcc) (row : Row) : LoopAcc :=
  let recordErr : LoopAcc → String → LoopAcc := fun a m =>
    { a with
      totalError := a.totalError + 1
      allErrors := if a.allErrors.length < 20 then a.allErrors ++ [(a.i, m)] else a.allErrors
      i := a.i + 1 }
  match parse_row_to_dto now row isVoalle isOmni isLig voalleDataRef with
  | Except.error m => recordErr acc m
  | Except.ok none => { acc with totalIgnorados := acc.totalIgnorados + 1, i := acc.i + 1 }
  | Except.ok (some dto) =>
    let protocoloVal : Option String :=
      match dto with
      | ParsedDto.trans d => d.protocolo
      | ParsedDto.voalle _ => none
    let keepGoing : LoopAcc → LoopAcc := fun a =>
      let a :=
        match dto with
        | ParsedDto.voalle d => { a with chunkVoalle := a.chunkVoalle ++ [d] }
        | ParsedDto.trans d => { a with chunkTrans := a.chunkTrans ++ [d] }
      if CHUNK_SIZE ≤ a.chunkTrans.length ∨ CHUNK_SIZE ≤ a.chunkVoalle.length then
        let fl := if isVoalle then flushChunkVoalle failAt a
                  else flushChunkTrans failAt protocolosBanco a
        if fl.2 then recordErr fl.1 (if isVoalle then erroLoteVoalle else erroLoteTrans)
        else { fl.1 with i := fl.1.i + 1 }
      else { a with i := a.i + 1 }
    match protocoloVal with
    | some p =>
      if p ≠ "" then
        if acc.vistos.contains p ∨ protocolosBanco.contains p then
          { acc with totalDuplicados := acc.totalDuplicados + 1, i := acc.i + 1 }
        else keepGoing { acc with vistos := acc.vistos ++ [p] }
      else keepGoing acc
    | none => keepGoing acc

/-- Model of the body of `upload_csv` from the empty-file check through the
response (controller lines 415-603), for a file already decoded into
`headers`/`rows`.  `uid` is the id of the pending ledger record created at
lines 371-378; `failAt` is the storage-failure schedule consulted at each
flush attempt; `filenameDate` stands for the (always defined) result of
`extract_date_from_filename(file.filename)`; `dataVoalle` is the optional
form field.  Every `HTTPException` raised inside the `try` is funnelled
through the `except HTTPException` handler, which marks the ledger record
as error; a `RuntimeError` escaping the FINAL `flush_chunk()` reaches the
generic handler (HTTP 500). -/
def uploadProcessStage (today : PyDate) (now : PyDateTime) (failAt : Nat → Bool)
    (st0 : Store) (uid : Nat) (headers : List String) (rows : List Row)
    (dataVoalle : Option String) (filenameDate : PyDate) : UploadOutcome :=
  let markErr : Store → Option String → Store := fun st e =>
    updateUpload st uid (fun u =>
      { u with status := some "error", processed_at := some now,
               error := match e with | some m => some m | none => u.error })
  if rows = [] then
    UploadOutcome.badRequest "Arquivo sem dados" (markErr st0 (some "Arquivo sem dados"))
  else
    let fmt := detect_format headers
    let isVoalle := fmt.1
    let isOmni := fmt.2.1
    let isLig := fmt.2.2
    if ¬ (isVoalle ∨ isOmni ∨ isLig) then
      UploadOutcome.badRequest "Tipo de planilha não identificado" (markErr st0 none)
    else
      let formatoNome := if isVoalle then "Voalle" else if isOmni then "Omnichannel" else "Ligação"
      let vref? : Except String (Option PyDate) :=
        if isVoalle then
          match dataVoalle with
          | some dstr =>
            (match parseDateISO dstr with
             | some d => Except.ok (some d)
             | none => Except.error "Data do formulário inválida")
          | none => Except.ok (some filenameDate)
        else Except.ok none
      match vref? with
      | Except.error m => UploadOutcome.badRequest m (markErr st0 none)
      | Except.ok voalleDataRef =>
        let dataErr : Option ValErr :=
          match voalleDataRef with
          | some d => if isVoalle then validar_data today d else none
          | none => none
        if dataErr.isSome then
          UploadOutcome.badRequest "Data do relatório inválida" (markErr st0 none)
        else
          let errosVal := pre_validar_planilha today rows isVoalle isOmni isLig
          if errosVal ≠ [] then
            UploadOutcome.badRequest "Pré-validação"
              (markErr st0 (some (renderErrs 3 (errosVal.map (fun e => (e.1, "erro de validação"))))))
          else
            let vex : List Nat :=
              match voalleDataRef with
              | some d => if isVoalle then carregar_voalle_existentes st0 d else []
              | none => []
            let protocolosBanco : List String :=
              if ¬ isVoalle then
                let protos := rows.filterMap (fun row =>
                  let p := pyStrip
                    (match rowOrNone row "Número do Protocolo" with
                     | some v => v
                     | none => rowOr row "Protocolo" "")
                  if p ≠ "" then some p else none)
                if protos ≠ [] then carregar_protocolos_existentes st0 protos else []
              else []
            let acc := rows.foldl
              (uploadRowStep now failAt isVoalle isOmni isLig voalleDataRef protocolosBanco)
              ⟨st0, vex, [], [], [], 0, 0, 0, 0, 0, [], 1⟩
            let fl := if isVoalle then flushChunkVoalle failAt acc
                      else flushChunkTrans failAt protocolosBanco acc
            if fl.2 then
              UploadOutcome.serverError (markErr fl.1.st (some (if isVoalle then erroLoteVoalle else erroLoteTrans)))
            else
              let a := fl.1
              let status :=
                if a.totalSuccess = 0 ∧ 0 < a.totalDuplicados ∧ a.totalError = 0 then "duplicate"
                else if 0 < a.totalSuccess ∧ a.totalError = 0 then "success"
                else if 0 < a.totalSuccess then "warning"
                else "error"
              let stFin := updateUpload a.st uid (fun u =>
                { u with
                  status := some status
                  total_registros := some a.totalSuccess
                  total_duplicados := some a.totalDuplicados
                  processed_at := some now
                  error := if a.allErrors ≠ [] then some (renderErrs 5 a.allErrors) else u.error })
              UploadOutcome.resposta status
                ⟨formatoNome, rows.length, a.totalSuccess, a.totalIgnorados,
                  a.totalDuplicados, a.totalError, a.allErrors.take 10⟩
                stFin

/-! ## Projections and concrete fixtures used by the claim theorems -/

/-- The counters of a normal response. -/
def outcomeCounts (o : UploadOutcome) : Option (String × Nat × Nat × Nat × Nat) :=
  match o with
  | UploadOutcome.resposta s d _ =>
    some (s, d.success_count, d.ignored_count, d.duplicate_count, d.error_count)
  | _ => none

/-- The store an outcome leaves behind. -/
def outcomeStore (o : UploadOutcome) : Store :=
  match o with
  | UploadOutcome.badRequest _ st => st
  | UploadOutcome.serverError st => st
  | UploadOutcome.resposta _ _ st => st

/-- The result dict of a batch call that returned normally. -/
def batchResOf (o : BatchOut) : Option BatchResult :=
  match o with
  | BatchOut.ok res _ => some res
  | BatchOut.raised _ => none

/-- The store a batch call leaves behind. -/
def batchStoreOf (o : BatchOut) : Store :=
  match o with
  | BatchOut.ok _ st => st
  | BatchOut.raised st => st

/-- The header row of an omnichannel export. -/
def omniHeaders : List String :=
  ["Data Inicial", "Hora Inicial", "Nome do Atendente", "Nome da Equipe", "Status",
   "Número do Protocolo", "Tempo em Espera na Fila", "Tempo em Atendimento"]

/-- A valid omnichannel row carrying protocol "P1". -/
def omniRow1 : Row :=
  [("Data Inicial", "15/03/2024"), ("Hora Inicial", "14:30:00"),
   ("Nome do Atendente", "Fulano De Tal"), ("Nome da Equipe", "SAC"),
   ("Status", "Concluído"), ("Número do Protocolo", "P1"),
   ("Tempo em Espera na Fila", "0:05"), ("Tempo em Atendimento", "1:00")]

/-- A valid omnichannel row with no protocol and no agent name. -/
def omniRowNP : Row :=
  [("Data Inicial", "15/03/2024"), ("Hora Inicial", "14:30:00")]

/-- An empty store holding one pending ledger record (id 0). -/
def storeVazia : Store :=
  ⟨[], [], [], [], [], [⟨0, "planilha.csv", "hash0", some "pending", none, none, none, none, none⟩],
    1, 1, 1⟩

/-- A fixed current day for the concrete runs. -/
def hoje : PyDate := ⟨2024, 3, 20⟩

/-- A fixed current instant for the concrete runs. -/
def agora : PyDateTime := ⟨2024, 3, 20, 10, 0, 0⟩

/-! ## C3 — file-hash duplicate guard -/

/-- C3: the claim says `verificar_hash_duplicado` returns `True` exactly
when an Upload Record with the same content hash and a terminal non-error
status exists, and that `upload_csv` stops with HTTP 409 before reading
rows when it does.  In fact the method can never return at all:
`models.Upload` declares no `file_hash` column, so the query expression
`models.Upload.file_hash` raises `AttributeError` on every call — including
when a success-status record with the same hash exists — and `upload_csv`
dies with an internal error before any parsing, for every upload. -/
theorem verificar_hash_duplicado_raises :
    (∀ (uploads : List UploadRec) (h : String),
        verificar_hash_duplicado uploads h =
          Except.error "AttributeError: a classe Upload não tem o atributo file_hash") ∧
    uploadDeclaredCols.contains "file_hash" = false ∧
    verificar_hash_duplicado
      [⟨0, "a.csv", "hash0", some "success", none, none, none, none, none⟩] "hash0"
      = Except.error "AttributeError: a classe Upload não tem o atributo file_hash" := by
  refine ⟨fun uploads h => ?_, by decide, by rfl⟩
  simp [verificar_hash_duplicado, uploadDeclaredCols]

/-! ## C8 — name resolver static table -/

/-- C8: the claim says every variant listed under a canonical name in
`COLABORADORES_SAC` resolves to the same key as its canonical.  The source
lists the truncation variants "GISELLE ALMEIDA RODRIGUES DA S" /
"Giselle Almeida Rodrigues Da S" under "Giselle Almeida Rodrigues Da
Silva", but the same key appears a second time further down with an empty
variant list; Python dict-literal semantics keep only the later, empty
entry, so `_RESOLVER` never learns the variants and `resolver_nome` returns
the truncated input itself instead of the canonical key. -/
theorem resolver_nome_giselle_variant_lost :
    ("Giselle Almeida Rodrigues Da Silva",
      ["GISELLE ALMEIDA RODRIGUES DA S", "Giselle Almeida Rodrigues Da S"])
      ∈ COLABORADORES_SAC ∧
    ("Giselle Almeida Rodrigues Da Silva", ([] : List String)) ∈ COLABORADORES_SAC ∧
    resolver_nome "Giselle Almeida Rodrigues Da S" = "GISELLE ALMEIDA RODRIGUES DA S" ∧
    resolver_nome "Giselle Almeida Rodrigues Da Silva" = "GISELLE ALMEIDA RODRIGUES DA SILVA" ∧
    resolver_nome "Giselle Almeida Rodrigues Da S"
      ≠ resolver_nome "Giselle Almeida Rodrigues Da Silva" := by
  decide

/-! ## C6 — shift derivation and its (lost) storage -/

/-- The DTO parsed from `omniRow1`.  There is no field in which the shift
computed at parse time could be stored: `AtendimentoTransacionalImportSchema`
declares none. -/
def dtoOmni1 : AtendimentoTransacionalImportSchema :=
  ⟨⟨2024, 3, 15, 14, 30, 0⟩, "FULANO DE TAL", some "SAC", "WhatsApp", "Concluído",
    some "P1", none, 5, 60, none, none⟩

/-- A store already holding the three dimensions `dtoOmni1` needs. -/
def storeComDims : Store :=
  ⟨[⟨1, "Fulano De Tal", some "SAC", none⟩], [⟨1, "WhatsApp"⟩], [⟨1, "Concluído"⟩],
    [], [], [], 2, 2, 2⟩

/-- C6: `calcular_turno` does return exactly the four fixed bands
(Madrugada 0-5, Manhã 6-11, Tarde 12-17, Noite 18-23) — but the second half
of the claim fails: `parse_row_to_dto` cannot store the derived label in
the record, because the pydantic schema declares no `turno` field and the
`turno=` keyword is silently dropped.  Consequently the batch writer's read
of `data.turno` raises `AttributeError`, and a fully valid, fully
dimension-resolved row is counted as an error with no fact written. -/
theorem calcular_turno_label_dropped :
    (∀ hr : Fin 24,
        calcular_turno ⟨2024, 3, 15, hr.val, 30, 0⟩ =
          if hr.val ≤ 5 then "Madrugada"
          else if hr.val ≤ 11 then "Manhã"
          else if hr.val ≤ 17 then "Tarde" else "Noite") ∧
    parse_row_to_dto agora omniRow1 false true false none
      = Except.ok (some (ParsedDto.trans dtoOmni1)) ∧
    calcular_turno dtoOmni1.data_referencia = "Tarde" ∧
    validateTransSchema
      { data_referencia := ⟨2024, 3, 15, 14, 30, 0⟩
        turno := "Tarde"
        colaborador_nome := "FULANO DE TAL"
        equipe := some "SAC"
        canal_nome := "WhatsApp"
        status_nome := "Concluído"
        protocolo := some "P1"
        sentido_interacao := none
        tempo_espera_segundos := 5
        tempo_atendimento_segundos := 60
        nota_solucao := none
        nota_atendimento := none } = Except.ok dtoOmni1 ∧
    process_transacional_batch storeComDims [dtoOmni1] [] false
      = BatchOut.ok ⟨0, 1, 0, 0, [(1, attributeErrTurno)], [], []⟩ storeComDims := by
  refine ⟨by decide, by rfl, by rfl, by rfl, by decide⟩

/-! ## C9 — duration parsing -/

/-- The ten decimal digit characters. -/
def digitChars : List Char := ['0', '1', '2', '3', '4', '5', '6', '7', '8', '9']

theorem digitChars_isDigit {c : Char} (h : c ∈ digitChars) : c.isDigit = true := by
  fin_cases h <;> decide

theorem digitChars_not_space {c : Char} (h : c ∈ digitChars) : isPySpace c = false := by
  fin_cases h <;> decide

theorem digitChars_ne_colon {c : Char} (h : c ∈ digitChars) : c ≠ ':' := by
  fin_cases h <;> decide

theorem digitChars_ne_plus {c : Char} (h : c ∈ digitChars) : c ≠ '+' := by
  fin_cases h <;> decide

theorem digitChars_ne_dash {c : Char} (h : c ∈ digitChars) : c ≠ '-' := by
  fin_cases h <;> decide

/-- Strings with no leading/trailing whitespace are unchanged by
`pyStripChars`; here the stronger no-whitespace-anywhere hypothesis. -/
theorem pyStripChars_of_no_ws {l : List Char} (h : ∀ c ∈ l, isPySpace c = false) :
    pyStripChars l = l := by
  have left : ∀ m : List Char, (∀ c ∈ m, isPySpace c = false) → pyStripLeft m = m := by
    intro m hm
    cases m with
    | nil => rfl
    | cons a t =>
      simp only [pyStripLeft, List.dropWhile_cons]
      rw [hm a (List.mem_cons_self a t)]
      simp
  unfold pyStripChars pyStripRight
  rw [left l h, left l.reverse (fun c hc => h c (List.mem_reverse.mp hc)), List.reverse_reverse]

/-- Traversal of `pySplitSepAux` over a separator-free prefix. -/
theorem pySplitSepAux_no_sep {sep : Char} {a : List Char}
    (h : ∀ c ∈ a, c ≠ sep) (r acc : List Char) :
    pySplitSepAux sep (a ++ r) acc = pySplitSepAux sep r (a.reverse ++ acc) := by
  induction a generalizing acc with
  | nil => simp
  | cons c t ih =>
    have hc : c ≠ sep := h c (List.mem_cons_self c t)
    simp only [List.cons_append, pySplitSepAux, if_neg hc, List.append_eq]
    rw [ih (fun x hx => h x (List.mem_cons_of_mem c hx)) (c :: acc)]
    simp

/-- `pyIntParse` succeeds on non-empty all-digit strings. -/
theorem pyIntParse_digits {l : List Char} (hne : l ≠ [])
    (hd : ∀ c ∈ l, c ∈ digitChars) :
    pyIntParse ⟨l⟩ = some (digitsVal l : Int) := by
  have hstrip : pyStripChars l = l :=
    pyStripChars_of_no_ws (fun c hc => digitChars_not_space (hd c hc))
  unfold pyIntParse
  cases l with
  | nil => exact absurd rfl hne
  | cons c t =>
    rw [show (String.mk (c :: t)).data = c :: t from rfl, hstrip]
    dsimp only
    have hc := hd c (List.mem_cons_self c t)
    rw [if_neg (digitChars_ne_plus hc), if_neg (digitChars_ne_dash hc)]
    have : (c :: t).all Char.isDigit = true :=
      List.all_eq_true.mpr (fun x hx => digitChars_isDigit (hd x hx))
    rw [if_pos this]

/-- An omnichannel row whose wait-time cell is the unparsable "ab:cd". -/
def omniRowBadTempo : Row :=
  [("Data Inicial", "15/03/2024"), ("Hora Inicial", "14:30:00"),
   ("Tempo em Espera na Fila", "ab:cd")]

/-- The DTO parsed from `omniRowBadTempo`: the unparsable duration is
stored as 0 and the row still parses. -/
def dtoBadTempo : AtendimentoTransacionalImportSchema :=
  ⟨⟨2024, 3, 15, 14, 30, 0⟩, "DESCONHECIDO", none, "WhatsApp", "Desconhecido",
    none, none, 0, 0, none, none⟩

/-- One colon-free segment splits to itself. -/
theorem pySplitSepAux_one {c : List Char} (hc : ∀ x ∈ c, x ≠ ':') :
    pySplitSepAux ':' c [] = [⟨c⟩] := by
  have h := pySplitSepAux_no_sep hc ([] : List Char) []
  simp only [List.append_nil] at h
  rw [h]
  simp [pySplitSepAux]

/-- Two colon-free segments around one colon split to the pair. -/
theorem pySplitSepAux_two {b c : List Char}
    (hb : ∀ x ∈ b, x ≠ ':') (hc : ∀ x ∈ c, x ≠ ':') :
    pySplitSepAux ':' (b ++ ':' :: c) [] = [⟨b⟩, ⟨c⟩] := by
  rw [pySplitSepAux_no_sep hb]
  simp [pySplitSepAux, pySplitSepAux_one hc]

/-- Three colon-free segments around two colons split to the triple. -/
theorem pySplitSepAux_three {a b c : List Char}
    (ha : ∀ x ∈ a, x ≠ ':') (hb : ∀ x ∈ b, x ≠ ':') (hc : ∀ x ∈ c, x ≠ ':') :
    pySplitSepAux ':' (a ++ ':' :: (b ++ ':' :: c)) [] = [⟨a⟩, ⟨b⟩, ⟨c⟩] := by
  rw [pySplitSepAux_no_sep ha]
  simp [pySplitSepAux, pySplitSepAux_two hb hc]

/-- Guard elimination for `parse_time_to_seconds` on whitespace-free inputs
containing a colon: the function proceeds to the split. -/
theorem parse_time_to_seconds_eq_split {t : String}
    (hnws : ∀ c ∈ t.data, isPySpace c = false) (hcolon : ':' ∈ t.data) :
    parse_time_to_seconds t
      = (match pySplitSepAux ':' t.data [] with
         | [a, b, c] =>
           match pyIntParse a, pyIntParse b, pyIntParse c with
           | some x, some y, some z => x * 3600 + y * 60 + z
           | _, _, _ => 0
         | [a, b] =>
           match pyIntParse a, pyIntParse b with
           | some x, some y => x * 60 + y
           | _, _ => 0
         | _ => (0 : Int)) := by
  have hstripc : pyStripChars t.data = t.data := pyStripChars_of_no_ws hnws
  have hstrip : pyStrip t = t := by
    unfold pyStrip
    rw [hstripc]
  have hne1 : t ≠ "" := by
    intro h
    rw [h] at hcolon
    exact absurd hcolon (by decide)
  have hne2 : pyStrip t ≠ "-" := by
    rw [hstrip]
    intro h
    rw [h] at hcolon
    exact absurd hcolon (by decide)
  have hne3 : pyStrip t ≠ "" := by rw [hstrip]; exact hne1
  unfold parse_time_to_seconds
  rw [if_neg (by
    intro h
    rcases h with h | h | h
    · exact hne1 h
    · exact hne2 h
    · exact hne3 h)]
  rw [hstrip]
  unfold pySplitSep
  rfl

/-- C9: `parse_time_to_seconds` is total and never raises: "H:MM:SS" yields
3600·H + 60·M + S, "M:SS" yields 60·M + S, empty and "-" yield 0, and any
unparsable input (such as "ab:cd") yields 0; a row with an unparsable
duration still parses successfully with the duration stored as 0. -/
theorem parse_time_to_seconds_spec :
    (∀ hs ms ss : String,
        hs.data ≠ [] → (∀ c ∈ hs.data, c ∈ digitChars) →
        ms.data ≠ [] → (∀ c ∈ ms.data, c ∈ digitChars) →
        ss.data ≠ [] → (∀ c ∈ ss.data, c ∈ digitChars) →
        parse_time_to_seconds (hs ++ ":" ++ ms ++ ":" ++ ss)
          = (digitsVal hs.data : Int) * 3600 + (digitsVal ms.data : Int) * 60
              + (digitsVal ss.data : Int)) ∧
    (∀ ms ss : String,
        ms.data ≠ [] → (∀ c ∈ ms.data, c ∈ digitChars) →
        ss.data ≠ [] → (∀ c ∈ ss.data, c ∈ digitChars) →
        parse_time_to_seconds (ms ++ ":" ++ ss)
          = (digitsVal ms.data : Int) * 60 + (digitsVal ss.data : Int)) ∧
    parse_time_to_seconds "" = 0 ∧
    parse_time_to_seconds " - " = 0 ∧
    parse_time_to_seconds "ab:cd" = 0 ∧
    parse_time_to_seconds "1:2:3:4" = 0 ∧
    parse_row_to_dto agora omniRowBadTempo false true false none
      = Except.ok (some (ParsedDto.trans dtoBadTempo)) := by
  refine ⟨?_, ?_, by decide, by decide, by decide, by decide, by rfl⟩
  · intro hs ms ss h1 h2 h3 h4 h5 h6
    have hdata : (hs ++ ":" ++ ms ++ ":" ++ ss).data
        = hs.data ++ ':' :: (ms.data ++ ':' :: ss.data) := by
      simp [String.data_append]
    rw [parse_time_to_seconds_eq_split
      (by
        intro c hc
        rw [hdata] at hc
        rcases List.mem_append.mp hc with h | h
        · exact digitChars_not_space (h2 c h)
        · rcases List.mem_cons.mp h with h | h
          · rw [h]; decide
          · rcases List.mem_append.mp h with h | h
            · exact digitChars_not_space (h4 c h)
            · rcases List.mem_cons.mp h with h | h
              · rw [h]; decide
              · exact digitChars_not_space (h6 c h))
      (by rw [hdata]; exact List.mem_append.mpr (Or.inr (List.mem_cons_self _ _)))]
    rw [hdata,
      pySplitSepAux_three (fun x hx => digitChars_ne_colon (h2 x hx))
        (fun x hx => digitChars_ne_colon (h4 x hx))
        (fun x hx => digitChars_ne_colon (h6 x hx))]
    dsimp only
    rw [pyIntParse_digits h1 h2, pyIntParse_digits h3 h4, pyIntParse_digits h5 h6]
  · intro ms ss h3 h4 h5 h6
    have hdata : (ms ++ ":" ++ ss).data = ms.data ++ ':' :: ss.data := by
      simp [String.data_append]
    rw [parse_time_to_seconds_eq_split
      (by
        intro c hc
        rw [hdata] at hc
        rcases List.mem_append.mp hc with h | h
        · exact digitChars_not_space (h4 c h)
        · rcases List.mem_cons.mp h with h | h
          · rw [h]; decide
          · exact digitChars_not_space (h6 c h))
      (by rw [hdata]; exact List.mem_append.mpr (Or.inr (List.mem_cons_self _ _)))]
    rw [hdata,
      pySplitSepAux_two (fun x hx => digitChars_ne_colon (h4 x hx))
        (fun x hx => digitChars_ne_colon (h6 x hx))]
    dsimp only
    rw [pyIntParse_digits h3 h4, pyIntParse_digits h5 h6]

/-- Witness for C9: the theorem applied at "1:02:03" and "4:05". -/
theorem parse_time_to_seconds_spec_witness :
    parse_time_to_seconds "1:02:03" = 3723 ∧ parse_time_to_seconds "4:05" = 245 := by
  have h1 := parse_time_to_seconds_spec.1 "1" "02" "03" (by decide) (by decide) (by decide)
    (by decide) (by decide) (by decide)
  have h2 := parse_time_to_seconds_spec.2.1 "4" "05" (by decide) (by decide) (by decide) (by decide)
  constructor
  · rw [show ("1:02:03" : String) = "1" ++ ":" ++ "02" ++ ":" ++ "03" from by decide, h1]
    decide
  · rw [show ("4:05" : String) = "4" ++ ":" ++ "05" from by decide, h2]
    decide

/-! ## C10 — missing or blank agent name -/

/-- The three outcome kinds of `parse_row_to_dto`: raised, skipped
(department filter), or parsed to a DTO. -/
inductive RowKind
  | failed
  | skipped
  | parsed
deriving DecidableEq

/-- Kind projection of a parse outcome. -/
def rowKindOf : Except String (Option ParsedDto) → RowKind
  | Except.error _ => RowKind.failed
  | Except.ok none => RowKind.skipped
  | Except.ok (some _) => RowKind.parsed

/-- An omnichannel row with every recognized column present (blank cells are
empty strings, exactly what the CSV/XLSX readers produce). -/
def mkOmniRow (equipe dataIn horaIn agente statusv proto te ta n1 n2 : String) : Row :=
  [("Nome da Equipe", equipe), ("Data Inicial", dataIn), ("Hora Inicial", horaIn),
   ("Nome do Atendente", agente), ("Status", statusv), ("Número do Protocolo", proto),
   ("Tempo em Espera na Fila", te), ("Tempo em Atendimento", ta),
   ("Avaliação - Nota da Solução Oferecida", n1),
   ("Avaliação - Nota do Atendimento Prestado", n2)]

/-- The parse outcome KIND of an omnichannel row depends only on the
department, timestamp and duration cells — not on the agent-name cell. -/
theorem rowKind_parse_omni (now : PyDateTime) (ref : Option PyDate) (row1 row2 : Row)
    (he : rowOr row1 "Nome da Equipe" "" = rowOr row2 "Nome da Equipe" "")
    (hd : rowOr row1 "Data Inicial" "" = rowOr row2 "Data Inicial" "")
    (hh : rowOr row1 "Hora Inicial" "" = rowOr row2 "Hora Inicial" "")
    (hte : rowOr row1 "Tempo em Espera na Fila" "" = rowOr row2 "Tempo em Espera na Fila" "")
    (hta : rowOr row1 "Tempo em Atendimento" "" = rowOr row2 "Tempo em Atendimento" "") :
    rowKindOf (parse_row_to_dto now row1 false true false ref)
      = rowKindOf (parse_row_to_dto now row2 false true false ref) := by
  unfold parse_row_to_dto
  rw [he, hd, hh, hte, hta]
  simp only [Bool.false_eq_true, if_false, eq_self_iff_true, if_true]
  split
  · rfl
  · split
    · rfl
    · unfold validateTransSchema
      dsimp only
      split
      · rfl
      · rfl

/-- The agent-name cell of `mkOmniRow` never decides whether the row is
skipped, rejected or parsed. -/
theorem parse_mkOmni_kind (now : PyDateTime) (ref : Option PyDate)
    (e dI hI a s p te ta n1 n2 : String) :
    rowKindOf (parse_row_to_dto now (mkOmniRow e dI hI a s p te ta n1 n2) false true false ref)
      = rowKindOf (parse_row_to_dto now (mkOmniRow e dI hI "" s p te ta n1 n2) false true false ref) :=
  rowKind_parse_omni now ref _ _ rfl rfl rfl rfl rfl

/-- Whenever an omnichannel row parses to a transactional DTO, the stored
employee name is `clean_agent_name` of the (defaulted) agent cell. -/
theorem parse_omni_nome (now : PyDateTime) (ref : Option PyDate) (row : Row)
    (d : AtendimentoTransacionalImportSchema)
    (h : parse_row_to_dto now row false true false ref
          = Except.ok (some (ParsedDto.trans d))) :
    d.colaborador_nome
      = clean_agent_name (pyStrip (rowOr row "Nome do Atendente" "Desconhecido")) := by
  unfold parse_row_to_dto at h
  simp only [Bool.false_eq_true, if_false, eq_self_iff_true, if_true] at h
  split at h
  · exact absurd h (by simp)
  · split at h
    · exact absurd h (by simp)
    · unfold validateTransSchema at h
      dsimp only at h
      split at h
      · dsimp only [Except.map] at h
        injection h with h1
        injection h1 with h2
        injection h2 with h3
        rw [← h3]
      · exact absurd h (by simp [Except.map])

/-- The DTO parsed from `omniRowNP` (no agent cell): the synthetic
"DESCONHECIDO" employee. -/
def dtoSemAgente : AtendimentoTransacionalImportSchema :=
  ⟨⟨2024, 3, 15, 14, 30, 0⟩, "DESCONHECIDO", none, "WhatsApp", "Desconhecido",
    none, none, 0, 0, none, none⟩

/-! ## C7 — predominant-shift recomputation -/

theorem find?_append_none {α : Type} {p : α → Bool} {l₁ l₂ : List α}
    (h : l₁.find? p = none) : (l₁ ++ l₂).find? p = l₂.find? p := by
  rw [List.find?_append, h]
  rfl

theorem find?_append_some {α : Type} {p : α → Bool} {l₁ l₂ : List α} {a : α}
    (h : l₁.find? p = some a) : (l₁ ++ l₂).find? p = some a := by
  rw [List.find?_append, h]
  rfl

/-- Key-targeted replacement does not disturb lookups of other keys. -/
theorem find?_mapReplace_ne {d : List (Nat × String × Nat)} {g : Nat × String × Nat}
    {cid : Nat} (h : ¬ g.1 = cid) :
    (d.map (fun q => if q.1 = g.1 then g else q)).find? (fun p => p.1 = cid)
      = d.find? (fun p => p.1 = cid) := by
  induction d with
  | nil => rfl
  | cons q t ih =>
    simp only [List.map_cons]
    by_cases hq : q.1 = g.1
    · rw [if_pos hq]
      rw [List.find?_cons, List.find?_cons]
      have h1 : (decide (g.1 = cid)) = false := by simp [h]
      have h2 : (decide (q.1 = cid)) = false := by
        simp only [decide_eq_false_iff_not]
        intro hc
        exact h (hq.symm.trans hc)
      rw [h1, h2]
      exact ih
    · rw [if_neg hq]
      rw [List.find?_cons, List.find?_cons]
      cases hqc : (decide (q.1 = cid)) with
      | true => rfl
      | false => exact ih

/-- Key-targeted replacement rewrites the lookup of that key. -/
theorem find?_mapReplace_eq {d : List (Nat × String × Nat)} {g : Nat × String × Nat} :
    (d.map (fun q => if q.1 = g.1 then g else q)).find? (fun p => p.1 = g.1)
      = (d.find? (fun p => p.1 = g.1)).map (fun _ => g) := by
  induction d with
  | nil => rfl
  | cons q t ih =>
    simp only [List.map_cons]
    by_cases hq : q.1 = g.1
    · rw [if_pos hq]
      rw [List.find?_cons, List.find?_cons]
      have h1 : (decide (g.1 = g.1)) = true := by simp
      have h2 : (decide (q.1 = g.1)) = true := by simp [hq]
      rw [h1, h2]
      rfl
    · rw [if_neg hq]
      rw [List.find?_cons, List.find?_cons]
      have h2 : (decide (q.1 = g.1)) = false := by simp [hq]
      rw [h2]
      exact ih

/-- Invariant tying the selection dict to the processed prefix of the
grouped rows: for every employee the dict entry (when present) carries the
maximal count over the prefix and is the FIRST group attaining that count. -/
def TurnoInv (d l : List (Nat × String × Nat)) : Prop :=
  ∀ cid : Nat,
    (d.find? (fun p => p.1 = cid) = none → ∀ g ∈ l, g.1 ≠ cid) ∧
    (∀ t n, d.find? (fun p => p.1 = cid) = some (cid, t, n) →
      (∀ t' n', (cid, t', n') ∈ l → n' ≤ n) ∧
      l.find? (fun g => g.1 = cid ∧ g.2.2 = n) = some (cid, t, n))

theorem turnoStep_inv {d l : List (Nat × String × Nat)} (hinv : TurnoInv d l)
    (g : Nat × String × Nat) : TurnoInv (turnoStep d g) (l ++ [g]) := by
  cases hfind : d.find? (fun p => p.1 = g.1) with
  | none =>
    have hstep : turnoStep d g = d ++ [g] := by
      unfold turnoStep
      rw [hfind]
    rw [hstep]
    have hl : ∀ x ∈ l, x.1 ≠ g.1 := fun x hx => (hinv g.1).1 hfind x hx
    intro cid
    by_cases hcid : g.1 = cid
    · subst hcid
      have happ : (d ++ [g]).find? (fun p => p.1 = g.1) = some g := by
        rw [find?_append_none hfind, List.find?_cons_of_pos _ (by simp)]
      constructor
      · intro h
        rw [happ] at h
        exact absurd h (by simp)
      · intro t n h
        rw [happ] at h
        injection h with h1
        have ht : g.2.1 = t := congrArg (fun x => x.2.1) h1
        have hn : g.2.2 = n := congrArg (fun x => x.2.2) h1
        subst ht
        subst hn
        constructor
        · intro t' n' hmem
          rcases List.mem_append.mp hmem with hm | hm
          · exact absurd rfl (hl (g.1, t', n') hm)
          · have h2 := List.mem_singleton.mp hm
            have h3 : n' = g.2.2 := congrArg (fun x => x.2.2) h2
            exact Nat.le_of_eq h3
        · have hln : l.find? (fun g2 => g2.1 = g.1 ∧ g2.2.2 = g.2.2) = none := by
            rw [List.find?_eq_none]
            intro x hx
            simp only [decide_eq_true_eq, not_and]
            intro hx1
            exact absurd hx1 (hl x hx)
          rw [find?_append_none hln, List.find?_cons_of_pos _ (by simp)]
    · constructor
      · intro h
        have hdn : d.find? (fun p => p.1 = cid) = none := by
          cases hdc : d.find? (fun p => p.1 = cid) with
          | none => rfl
          | some a =>
            rw [find?_append_some hdc] at h
            exact absurd h (by simp)
        intro x hx
        rcases List.mem_append.mp hx with hm | hm
        · exact (hinv cid).1 hdn x hm
        · have h2 := List.mem_singleton.mp hm
          subst h2
          exact hcid
      · intro t n h
        have hdc : d.find? (fun p => p.1 = cid) = some (cid, t, n) := by
          cases hdc2 : d.find? (fun p => p.1 = cid) with
          | none =>
            rw [find?_append_none hdc2,
                List.find?_cons_of_neg _ (by simpa using hcid)] at h
            exact absurd h (by simp)
          | some a =>
            rw [find?_append_some hdc2] at h
            exact h
        obtain ⟨hmax, hfirst⟩ := (hinv cid).2 t n hdc
        constructor
        · intro t' n' hmem
          rcases List.mem_append.mp hmem with hm | hm
          · exact hmax t' n' hm
          · have h2 := List.mem_singleton.mp hm
            have h3 : g.1 = cid := (congrArg (fun x => x.1) h2).symm
            exact absurd h3 hcid
        · exact find?_append_some hfirst
  | some p =>
    have hp1 : p.1 = g.1 := by simpa using List.find?_some hfind
    have hpfull : d.find? (fun p => p.1 = g.1) = some (g.1, p.2.1, p.2.2) := by
      rw [hfind, ← hp1]
    obtain ⟨hmaxp, hfirstp⟩ := (hinv g.1).2 p.2.1 p.2.2 hpfull
    by_cases hgtc : g.2.2 > p.2.2
    · have hstep : turnoStep d g = d.map (fun q => if q.1 = g.1 then g else q) := by
        unfold turnoStep
        rw [hfind]
        exact if_pos hgtc
      rw [hstep]
      intro cid
      by_cases hcid : g.1 = cid
      · subst hcid
        have hmap : ((d.map fun q => if q.1 = g.1 then g else q).find?
            fun p => p.1 = g.1) = some g := by
          rw [find?_mapReplace_eq, hfind]
          rfl
        constructor
        · intro h
          rw [hmap] at h
          exact absurd h (by simp)
        · intro t n h
          rw [hmap] at h
          injection h with h1
          have ht : g.2.1 = t := congrArg (fun x => x.2.1) h1
          have hn : g.2.2 = n := congrArg (fun x => x.2.2) h1
          subst ht
          subst hn
          constructor
          · intro t' n' hmem
            rcases List.mem_append.mp hmem with hm | hm
            · exact Nat.le_of_lt (Nat.lt_of_le_of_lt (hmaxp t' n' hm) hgtc)
            · have h2 := List.mem_singleton.mp hm
              have h3 : n' = g.2.2 := congrArg (fun x => x.2.2) h2
              exact Nat.le_of_eq h3
          · have hln : l.find? (fun g2 => g2.1 = g.1 ∧ g2.2.2 = g.2.2) = none := by
              rw [List.find?_eq_none]
              intro x hx
              simp only [decide_eq_true_eq, not_and]
              intro hx1 hx2
              have hx' : (g.1, x.2.1, x.2.2) ∈ l := by
                rw [← hx1]
                exact hx
              have hle := hmaxp x.2.1 x.2.2 hx'
              omega
            rw [find?_append_none hln, List.find?_cons_of_pos _ (by simp)]
      · have hmap := @find?_mapReplace_ne d g cid hcid
        constructor
        · intro h
          rw [hmap] at h
          intro x hx
          rcases List.mem_append.mp hx with hm | hm
          · exact (hinv cid).1 h x hm
          · have h2 := List.mem_singleton.mp hm
            subst h2
            exact hcid
        · intro t n h
          rw [hmap] at h
          obtain ⟨hmax, hfirst⟩ := (hinv cid).2 t n h
          constructor
          · intro t' n' hmem
            rcases List.mem_append.mp hmem with hm | hm
            · exact hmax t' n' hm
            · have h2 := List.mem_singleton.mp hm
              have h3 : g.1 = cid := (congrArg (fun x => x.1) h2).symm
              exact absurd h3 hcid
          · exact find?_append_some hfirst
    · have hstep : turnoStep d g = d := by
        unfold turnoStep
        rw [hfind]
        exact if_neg hgtc
      rw [hstep]
      intro cid
      by_cases hcid : g.1 = cid
      · subst hcid
        constructor
        · intro h
          rw [hfind] at h
          exact absurd h (by simp)
        · intro t n h
          rw [hfind] at h
          injection h with h1
          have ht : p.2.1 = t := congrArg (fun x => x.2.1) h1
          have hn : p.2.2 = n := congrArg (fun x => x.2.2) h1
          subst ht
          subst hn
          constructor
          · intro t' n' hmem
            rcases List.mem_append.mp hmem with hm | hm
            · exact hmaxp t' n' hm
            · have h2 := List.mem_singleton.mp hm
              have h3 : n' = g.2.2 := congrArg (fun x => x.2.2) h2
              omega
          · exact find?_append_some hfirstp
      · constructor
        · intro h
          intro x hx
          rcases List.mem_append.mp hx with hm | hm
          · exact (hinv cid).1 h x hm
          · have h2 := List.mem_singleton.mp hm
            subst h2
            exact hcid
        · intro t n h
          obtain ⟨hmax, hfirst⟩ := (hinv cid).2 t n h
          constructor
          · intro t' n' hmem
            rcases List.mem_append.mp hmem with hm | hm
            · exact hmax t' n' hm
            · have h2 := List.mem_singleton.mp hm
              have h3 : g.1 = cid := (congrArg (fun x => x.1) h2).symm
              exact absurd h3 hcid
          · exact find?_append_some hfirst

theorem turnoPorColaborador_inv (R : List (Nat × String × Nat)) :
    TurnoInv (turnoPorColaborador R) R := by
  have main : ∀ (l d l₀ : List (Nat × String × Nat)),
      TurnoInv d l₀ → TurnoInv (l.foldl turnoStep d) (l₀ ++ l) := by
    intro l
    induction l with
    | nil =>
      intro d l₀ h
      simpa using h
    | cons g t ih =>
      intro d l₀ h
      have h2 := ih (turnoStep d g) (l₀ ++ [g]) (turnoStep_inv h g)
      simpa [List.append_assoc] using h2
  have h0 : TurnoInv [] [] := by
    intro cid
    constructor
    · intro _ g hg
      exact absurd hg (List.not_mem_nil g)
    · intro t n h
      exact absurd h (by simp)
  simpa [turnoPorColaborador] using main R [] [] h0

/-- A persisted interaction fact with the given shift label (employee 1). -/
def fatoTurno (t : String) : FatoAtendimento :=
  ⟨⟨2024, 3, 15, 10, 0, 0⟩, t, none, none, 0, 0, none, none, 1, 1, 1⟩

/-- Store holding employee 1 with 7 facts at Tarde and 3 at Noite. -/
def storeTarde : Store :=
  ⟨[⟨1, "Alice", some "SAC", none⟩], [⟨1, "Chat"⟩], [⟨1, "Resolvido"⟩],
    List.replicate 7 (fatoTurno "Tarde") ++ List.replicate 3 (fatoTurno "Noite"),
    [], [], 2, 2, 2⟩

/-- C7: `_atualizar_turno_colaboradores` picks, for each affected employee,
the shift with the strictly highest count among the employee's persisted
facts, first-seen group winning ties: whenever the selection dict built by
the fold holds `(cid, t, n)`, `n` is maximal over all of `cid`'s grouped
counts and `(cid, t, n)` is the first group attaining `n`; concretely, an
employee with 7 facts at Tarde and 3 at Noite ends with `turno = "Tarde"`. -/
theorem turno_mais_frequente :
    (∀ (fatos : List FatoAtendimento) (ids : List Nat) (cid : Nat) (t : String) (n : Nat),
        (turnoPorColaborador (groupTurnoCounts fatos ids)).find? (fun p => p.1 = cid)
            = some (cid, t, n) →
        (∀ t' n', (cid, t', n') ∈ groupTurnoCounts fatos ids → n' ≤ n) ∧
        (groupTurnoCounts fatos ids).find? (fun g => g.1 = cid ∧ g.2.2 = n)
            = some (cid, t, n)) ∧
    _atualizar_turno_colaboradores storeTarde [1]
      = { storeTarde with colaboradores := [⟨1, "Alice", some "SAC", some "Tarde"⟩] } := by
  constructor
  · intro fatos ids cid t n h
    exact (turnoPorColaborador_inv (groupTurnoCounts fatos ids) cid).2 t n h
  · decide

/-- C7 witness: the selection property applied at the concrete 7-Tarde /
3-Noite store: the winning group is the maximum and the first attaining it. -/
theorem turno_mais_frequente_witness :
    (∀ t' n', (1, t', n') ∈ groupTurnoCounts storeTarde.fatos [1] → n' ≤ 7) ∧
    (groupTurnoCounts storeTarde.fatos [1]).find? (fun g => g.1 = 1 ∧ g.2.2 = 7)
      = some (1, "Tarde", 7) :=
  turno_mais_frequente.1 storeTarde.fatos [1] 1 "Tarde" 7 (by decide)

/-! ## C5 — voalle keep gate -/

/-- The code's skip gate of the voalle row loop: block-listed sender or a
name the resolver does not recognise as SAC. -/
def voalleGateFailB (r : VoalleAgregadoImportSchema) : Bool :=
  isBlockedVoalleName r.colaborador_nome || !(is_sac r.colaborador_nome)

/-- The SPEC's wording of the keep gate (for comparison with the code's):
no block-listed substring, and the name is resolver-recognised SAC or an
employee with that resolved name and team SAC already sits in the
dimension. -/
def specVoalleKeep (st : Store) (r : VoalleAgregadoImportSchema) : Prop :=
  isBlockedVoalleName r.colaborador_nome = false ∧
  (is_sac r.colaborador_nome = true ∨
    ∃ c ∈ st.colaboradores, c.equipe = some "SAC" ∧
      resolver_nome c.nome = resolver_nome r.colaborador_nome)

/-- The staged voalle fact carries exactly the row's payload fields. -/
def fatoFromRow (r : VoalleAgregadoImportSchema) (f : FatoVoalleDiario) : Prop :=
  f.data_referencia = r.data_referencia ∧
  f.clientes_atendidos = r.clientes_atendidos ∧
  f.numero_atendimentos = r.numero_atendimentos ∧
  f.solicitacao_finalizada = r.solicitacao_finalizada

theorem voalleGateFailB_false {st : Store} {r : VoalleAgregadoImportSchema}
    (h : voalleGateFailB r = false) : specVoalleKeep st r := by
  have h2 := h
  simp only [voalleGateFailB, Bool.or_eq_false_iff, Bool.not_eq_false'] at h2
  exact ⟨h2.1, Or.inl h2.2⟩

theorem insertColaboradores_fatosVoalle (l : List NewColab) :
    ∀ st : Store, (insertColaboradores st l).fatosVoalle = st.fatosVoalle := by
  induction l with
  | nil => intro st; rfl
  | cons n t ih => intro st; exact ih _

theorem voalleRowStep_spec (acc : VoalleAcc) (data : VoalleAgregadoImportSchema) :
    ((voalleRowStep acc data).ignorC
        = acc.ignorC + (if voalleGateFailB data then 1 else 0)) ∧
    ((voalleRowStep acc data).success + (voalleRowStep acc data).errorC
        + (voalleRowStep acc data).dup
      = acc.success + acc.errorC + acc.dup + (if voalleGateFailB data then 0 else 1)) ∧
    (∀ f ∈ (voalleRowStep acc data).fatosIns,
      f ∈ acc.fatosIns ∨ (voalleGateFailB data = false ∧ fatoFromRow data f)) ∧
    ((voalleRowStep acc data).st.fatosVoalle = acc.st.fatosVoalle) := by
  unfold voalleRowStep
  by_cases hb : isBlockedVoalleName data.colaborador_nome
  · have hgt : voalleGateFailB data = true := by simp [voalleGateFailB, hb]
    rw [if_pos hb]
    exact ⟨by simp [hgt], by simp [hgt], fun f hf => Or.inl hf, rfl⟩
  · rw [if_neg hb]
    have hb' : isBlockedVoalleName data.colaborador_nome = false := Bool.eq_false_iff.mpr hb
    by_cases hs : is_sac data.colaborador_nome
    · have hgf : voalleGateFailB data = false := by simp [voalleGateFailB, hb', hs]
      rw [if_neg (not_not_intro hs)]
      dsimp only
      cases hdg : dictGet? acc.cache (resolver_nome data.colaborador_nome) with
      | some c =>
        dsimp only
        by_cases hdup : acc.idsJa.contains c.id
        · rw [if_pos hdup]
          exact ⟨by simp [hgf], by simp [hgf]; omega, fun f hf => Or.inl hf, rfl⟩
        · rw [if_neg hdup]
          refine ⟨by simp [hgf], by simp [hgf]; omega, ?_, rfl⟩
          intro f hf
          rcases List.mem_append.mp hf with h1 | h1
          · exact Or.inl h1
          · have h2 := List.mem_singleton.mp h1
            subst h2
            exact Or.inr ⟨hgf, rfl, rfl, rfl, rfl⟩
      | none =>
        dsimp only
        cases hh : ((insertColaboradores acc.st
            [⟨pyTitle (resolver_nome data.colaborador_nome), "SAC"⟩]).colaboradores.filter
              (fun c => c.nome = pyTitle (resolver_nome data.colaborador_nome))).head? with
        | none =>
          dsimp only
          exact ⟨by simp [hgf], by simp [hgf]; omega, fun f hf => Or.inl hf,
            insertColaboradores_fatosVoalle _ _⟩
        | some c =>
          dsimp only
          by_cases hdup : acc.idsJa.contains c.id
          · rw [if_pos hdup]
            exact ⟨by simp [hgf], by simp [hgf]; omega, fun f hf => Or.inl hf,
              insertColaboradores_fatosVoalle _ _⟩
          · rw [if_neg hdup]
            refine ⟨by simp [hgf], by simp [hgf]; omega, ?_,
              insertColaboradores_fatosVoalle _ _⟩
            intro f hf
            rcases List.mem_append.mp hf with h1 | h1
            · exact Or.inl h1
            · have h2 := List.mem_singleton.mp h1
              subst h2
              exact Or.inr ⟨hgf, rfl, rfl, rfl, rfl⟩
    · have hgt : voalleGateFailB data = true := by
        simp [voalleGateFailB, Bool.eq_false_iff.mpr hs]
      rw [if_pos hs]
      exact ⟨by simp [hgt], by simp [hgt], fun f hf => Or.inl hf, rfl⟩

theorem voalleFold_spec (l : List VoalleAgregadoImportSchema) :
    ∀ acc : VoalleAcc,
      ((l.foldl voalleRowStep acc).ignorC
          = acc.ignorC + (l.filter (fun r => voalleGateFailB r)).length) ∧
      ((l.foldl voalleRowStep acc).success + (l.foldl voalleRowStep acc).errorC
          + (l.foldl voalleRowStep acc).dup
        = acc.success + acc.errorC + acc.dup
          + (l.filter (fun r => !(voalleGateFailB r))).length) ∧
      (∀ f ∈ (l.foldl voalleRowStep acc).fatosIns,
        f ∈ acc.fatosIns ∨ ∃ r ∈ l, voalleGateFailB r = false ∧ fatoFromRow r f) ∧
      ((l.foldl voalleRowStep acc).st.fatosVoalle = acc.st.fatosVoalle) := by
  induction l with
  | nil =>
    intro acc
    exact ⟨by simp, by simp, fun f hf => Or.inl hf, rfl⟩
  | cons r t ih =>
    intro acc
    obtain ⟨h1, h2, h3, h4⟩ := voalleRowStep_spec acc r
    obtain ⟨ih1, ih2, ih3, ih4⟩ := ih (voalleRowStep acc r)
    refine ⟨?_, ?_, ?_, ?_⟩
    · rw [List.foldl_cons, ih1, h1, List.filter_cons]
      by_cases hg : voalleGateFailB r
      · rw [if_pos hg, if_pos hg, List.length_cons]
        omega
      · rw [if_neg hg, if_neg hg]
        omega
    · rw [List.foldl_cons, ih2, h2, List.filter_cons]
      by_cases hg : voalleGateFailB r
      · rw [if_pos hg, if_neg (by simp [hg])]
        omega
      · rw [if_neg hg, if_pos (by simp [Bool.eq_false_iff.mpr hg]), List.length_cons]
        omega
    · intro f hf
      rw [List.foldl_cons] at hf
      rcases ih3 f hf with hin | ⟨r', hr', hgf, hfr⟩
      · rcases h3 f hin with hin2 | ⟨hgf, hfr⟩
        · exact Or.inl hin2
        · exact Or.inr ⟨r, List.mem_cons_self r t, hgf, hfr⟩
      · exact Or.inr ⟨r', List.mem_cons_of_mem r hr', hgf, hfr⟩
    · rw [List.foldl_cons, ih4, h4]

/-- The accumulator the voalle row loop starts from (the `let` bindings of
`voalleLoopAcc` made explicit). -/
def voalleInitAcc (st : Store) (vex : List Nat) : VoalleAcc :=
  { st := st
    cache := dictOf ((st.colaboradores.filter (fun c => c.equipe = some "SAC")).map
      (fun c => (resolver_nome c.nome, c)))
    idsJa := vex
    i := 1
    success := 0
    errorC := 0
    dup := 0
    ignorC := 0
    erros := []
    nomesIgnorados := []
    fatosIns := [] }

/-- C5: in `process_voalle_batch` a row is kept only if its raw name has no
block-listed substring and passes the SAC gate — every persisted new fact
stems from a row satisfying the spec's keep gate — while the rows failing
the gate are tallied in `ignorados_count` (exactly the failing rows) and
never in the error/duplicate/success tallies, which among them account for
exactly the gate-passing rows. -/
theorem voalle_keep_gate :
    ∀ (st : Store) (registros : List VoalleAgregadoImportSchema) (vex : List Nat)
      (res : BatchResult) (st' : Store),
      process_voalle_batch st registros vex false = BatchOut.ok res st' →
      res.ignorados_count = (registros.filter (fun r => voalleGateFailB r)).length ∧
      res.success_count + res.error_count + res.duplicate_count
        = (registros.filter (fun r => !(voalleGateFailB r))).length ∧
      ∀ f ∈ st'.fatosVoalle,
        f ∈ st.fatosVoalle ∨ ∃ r ∈ registros, specVoalleKeep st r ∧ fatoFromRow r f := by
  intro st registros vex res st' h
  simp only [process_voalle_batch, Bool.false_eq_true, if_false] at h
  injection h with h1 h2
  subst h1
  subst h2
  have hacc : voalleLoopAcc st registros vex
      = registros.foldl voalleRowStep (voalleInitAcc st vex) := rfl
  obtain ⟨f1, f2, f3, f4⟩ := voalleFold_spec registros (voalleInitAcc st vex)
  refine ⟨?_, ?_, ?_⟩
  · show (voalleLoopAcc st registros vex).ignorC = _
    rw [hacc, f1]
    simp [voalleInitAcc]
  · show (voalleLoopAcc st registros vex).success + (voalleLoopAcc st registros vex).errorC
        + (voalleLoopAcc st registros vex).dup = _
    rw [hacc, f2]
    simp [voalleInitAcc]
  · intro f hf
    have hf2 : f ∈ (voalleLoopAcc st registros vex).st.fatosVoalle
        ++ (voalleLoopAcc st registros vex).fatosIns := hf
    rw [hacc] at hf2
    rcases List.mem_append.mp hf2 with h1 | h1
    · rw [f4] at h1
      exact Or.inl h1
    · rcases f3 f h1 with h2 | ⟨r, hr, hgf, hfr⟩
      · exact absurd h2 (List.not_mem_nil f)
      · exact Or.inr ⟨r, hr, voalleGateFailB_false hgf, hfr⟩

/-- Fixture: a store already holding the SAC employee "Gustavo Lanza". -/
def storeSAC : Store := ⟨[⟨1, "Gustavo Lanza", some "SAC", none⟩], [], [], [], [], [], 2, 1, 1⟩

def vRowBlocked : VoalleAgregadoImportSchema := ⟨⟨2024, 3, 15⟩, "SYNTESIS", 0, 0, 0⟩

def vRowFulano : VoalleAgregadoImportSchema := ⟨⟨2024, 3, 15⟩, "Fulano", 1, 2, 3⟩

def vRowLanza : VoalleAgregadoImportSchema := ⟨⟨2024, 3, 15⟩, "Gustavo Lanza", 5, 7, 3⟩

def vRowLanza2 : VoalleAgregadoImportSchema := ⟨⟨2024, 3, 15⟩, "GUSTAVO LANZA", 9, 9, 9⟩

def vRows : List VoalleAgregadoImportSchema := [vRowBlocked, vRowFulano, vRowLanza, vRowLanza2]

def fatoLanza : FatoVoalleDiario := ⟨⟨2024, 3, 15⟩, 5, 7, 3, 1⟩

def vRes : BatchResult := ⟨1, 0, 1, 2, [], [], ["Fulano"]⟩

def vStoreFim : Store :=
  ⟨[⟨1, "Gustavo Lanza", some "SAC", none⟩], [], [], [], [fatoLanza], [], 2, 1, 1⟩

/-- C5 witness: a blocked sender and an unknown name are ignored (2 rows),
one kept row and one same-employee duplicate account for the rest, and the
single persisted fact stems from the gate-passing "Gustavo Lanza" row. -/
theorem voalle_keep_gate_witness :
    vRes.ignorados_count = (vRows.filter (fun r => voalleGateFailB r)).length ∧
    vRes.success_count + vRes.error_count + vRes.duplicate_count
      = (vRows.filter (fun r => !(voalleGateFailB r))).length ∧
    (fatoLanza ∈ storeSAC.fatosVoalle ∨
      ∃ r ∈ vRows, specVoalleKeep storeSAC r ∧ fatoFromRow r fatoLanza) := by
  have h := voalle_keep_gate storeSAC vRows [] vRes vStoreFim (by rfl)
  exact ⟨h.1, h.2.1, h.2.2 fatoLanza (by decide)⟩

/-! ## C4 — post-refresh dimension resolution -/

theorem dictGet?_isSome_iff {α : Type} (d : List (String × α)) (k : String) :
    (dictGet? d k).isSome = true ↔ ∃ p ∈ d, p.1 = k := by
  simp [dictGet?, List.find?_isSome]

theorem dictUpdate_key_mem {α : Type} (d : List (String × α)) (k : String) (v : α) :
    ∃ p ∈ dictUpdate d k v, p.1 = k := by
  unfold dictUpdate
  by_cases h : d.any (fun p => p.1 = k)
  · rw [if_pos h]
    obtain ⟨q, hq, hqk⟩ := List.any_eq_true.mp h
    refine ⟨(k, v), List.mem_map.mpr ⟨q, hq, ?_⟩, rfl⟩
    rw [if_pos (by simpa using hqk)]
  · rw [if_neg h]
    exact ⟨(k, v), List.mem_append.mpr (Or.inr (List.mem_singleton.mpr rfl)), rfl⟩

theorem dictUpdate_preserve {α : Type} {d : List (String × α)} {k' : String} (k : String) (v : α)
    (h : ∃ p ∈ d, p.1 = k') : ∃ p ∈ dictUpdate d k v, p.1 = k' := by
  obtain ⟨p, hp, hpk⟩ := h
  unfold dictUpdate
  by_cases h2 : d.any (fun p => p.1 = k)
  · rw [if_pos h2]
    by_cases hpk2 : p.1 = k
    · refine ⟨(k, v), List.mem_map.mpr ⟨p, hp, by rw [if_pos hpk2]⟩, ?_⟩
      exact hpk2.symm.trans hpk
    · exact ⟨p, List.mem_map.mpr ⟨p, hp, by rw [if_neg hpk2]⟩, hpk⟩
  · rw [if_neg h2]
    exact ⟨p, List.mem_append.mpr (Or.inl hp), hpk⟩

theorem foldlUpdate_preserve {β : Type} (key : β → String) (L : List β) :
    ∀ (d : List (String × β)) (k : String), (∃ p ∈ d, p.1 = k) →
      ∃ p ∈ L.foldl (fun d x => dictUpdate d (key x) x) d, p.1 = k := by
  induction L with
  | nil =>
    intro d k h
    simpa using h
  | cons y t ih =>
    intro d k h
    rw [List.foldl_cons]
    exact ih _ k (dictUpdate_preserve (key y) y h)

theorem foldlUpdate_mem {β : Type} (key : β → String) (L : List β) :
    ∀ (d : List (String × β)) (k : String), (∃ x ∈ L, key x = k) →
      ∃ p ∈ L.foldl (fun d x => dictUpdate d (key x) x) d, p.1 = k := by
  induction L with
  | nil =>
    intro d k h
    rcases h with ⟨x, hx, _⟩
    exact absurd hx (List.not_mem_nil x)
  | cons y t ih =>
    intro d k h
    rw [List.foldl_cons]
    rcases h with ⟨x, hx, hxk⟩
    rcases List.mem_cons.mp hx with h1 | h1
    · subst h1
      refine foldlUpdate_preserve key t _ k ?_
      obtain ⟨p, hp, hpk⟩ := dictUpdate_key_mem d (key x) x
      exact ⟨p, hp, hpk.trans hxk⟩
    · exact ih _ k ⟨x, h1, hxk⟩

/-- One step of the staging loop of `stageNewDims`, named for reasoning. -/
def stageStep (cache : DimCache) (acc : StagedDims)
    (data : AtendimentoTransacionalImportSchema) : StagedDims :=
  let nomeKey := resolver_nome data.colaborador_nome
  let acc :=
    if (dictGet? cache.colaboradores nomeKey).isNone then
      { acc with
        nomesSemMatch :=
          if acc.nomesSemMatch.contains data.colaborador_nome then acc.nomesSemMatch
          else acc.nomesSemMatch ++ [data.colaborador_nome]
        newCols :=
          if acc.newCols.any (fun r => resolver_nome r.nome = nomeKey) then acc.newCols
          else acc.newCols ++ [⟨pyTitle nomeKey, equipeOrSAC data.equipe⟩] }
    else acc
  let acc :=
    if (dictGet? cache.canais data.canal_nome).isNone ∧
        ¬ acc.newCanais.contains data.canal_nome then
      { acc with newCanais := acc.newCanais ++ [data.canal_nome] }
    else acc
  if (dictGet? cache.statusCache data.status_nome).isNone ∧
      ¬ acc.newStatus.contains data.status_nome then
    { acc with newStatus := acc.newStatus ++ [data.status_nome] }
  else acc

theorem stageNewDims_eq_foldl (cache : DimCache)
    (registros : List AtendimentoTransacionalImportSchema) :
    stageNewDims cache registros = registros.foldl (stageStep cache) ⟨[], [], [], []⟩ := rfl

theorem stageStep_newCanais (cache : DimCache) (acc : StagedDims)
    (data : AtendimentoTransacionalImportSchema) :
    (stageStep cache acc data).newCanais =
      if (dictGet? cache.canais data.canal_nome).isNone ∧
          ¬ acc.newCanais.contains data.canal_nome then
        acc.newCanais ++ [data.canal_nome]
      else acc.newCanais := by
  unfold stageStep
  dsimp only
  simp only [apply_ite StagedDims.newCanais, ite_self]

theorem stageStep_newCols (cache : DimCache) (acc : StagedDims)
    (data : AtendimentoTransacionalImportSchema) :
    (stageStep cache acc data).newCols =
      if (dictGet? cache.colaboradores (resolver_nome data.colaborador_nome)).isNone then
        (if acc.newCols.any
            (fun r => resolver_nome r.nome = resolver_nome data.colaborador_nome) then
          acc.newCols
        else acc.newCols ++
          [⟨pyTitle (resolver_nome data.colaborador_nome), equipeOrSAC data.equipe⟩])
      else acc.newCols := by
  unfold stageStep
  dsimp only
  simp only [apply_ite StagedDims.newCols, ite_self]

theorem stageStep_newStatus (cache : DimCache) (acc : StagedDims)
    (data : AtendimentoTransacionalImportSchema) :
    (stageStep cache acc data).newStatus =
      if (dictGet? cache.statusCache data.status_nome).isNone ∧
          ¬ acc.newStatus.contains data.status_nome then
        acc.newStatus ++ [data.status_nome]
      else acc.newStatus := by
  unfold stageStep
  dsimp only
  simp only [apply_ite StagedDims.newStatus, ite_self]

theorem stageFold_canal_mono (cache : DimCache)
    (l : List AtendimentoTransacionalImportSchema) :
    ∀ (acc : StagedDims) (x : String), x ∈ acc.newCanais →
      x ∈ (l.foldl (stageStep cache) acc).newCanais := by
  induction l with
  | nil =>
    intro acc x h
    simpa using h
  | cons r t ih =>
    intro acc x h
    rw [List.foldl_cons]
    refine ih _ x ?_
    rw [stageStep_newCanais]
    by_cases hc : (dictGet? cache.canais r.canal_nome).isNone = true ∧
        ¬ acc.newCanais.contains r.canal_nome = true
    · rw [if_pos hc]
      exact List.mem_append.mpr (Or.inl h)
    · rw [if_neg hc]
      exact h

theorem stageFold_status_mono (cache : DimCache)
    (l : List AtendimentoTransacionalImportSchema) :
    ∀ (acc : StagedDims) (x : String), x ∈ acc.newStatus →
      x ∈ (l.foldl (stageStep cache) acc).newStatus := by
  induction l with
  | nil =>
    intro acc x h
    simpa using h
  | cons r t ih =>
    intro acc x h
    rw [List.foldl_cons]
    refine ih _ x ?_
    rw [stageStep_newStatus]
    by_cases hc : (dictGet? cache.statusCache r.status_nome).isNone = true ∧
        ¬ acc.newStatus.contains r.status_nome = true
    · rw [if_pos hc]
      exact List.mem_append.mpr (Or.inl h)
    · rw [if_neg hc]
      exact h

theorem stageFold_colab_mono (cache : DimCache)
    (l : List AtendimentoTransacionalImportSchema) :
    ∀ (acc : StagedDims) (k : String), (∃ r ∈ acc.newCols, resolver_nome r.nome = k) →
      ∃ r ∈ (l.foldl (stageStep cache) acc).newCols, resolver_nome r.nome = k := by
  induction l with
  | nil =>
    intro acc k h
    simpa using h
  | cons r t ih =>
    intro acc k h
    rw [List.foldl_cons]
    refine ih _ k ?_
    rw [stageStep_newCols]
    obtain ⟨q, hq, hqk⟩ := h
    by_cases hc : (dictGet? cache.colaboradores (resolver_nome r.colaborador_nome)).isNone = true
    · rw [if_pos hc]
      by_cases hany : acc.newCols.any
          (fun r2 => resolver_nome r2.nome = resolver_nome r.colaborador_nome) = true
      · rw [if_pos hany]
        exact ⟨q, hq, hqk⟩
      · rw [if_neg hany]
        exact ⟨q, List.mem_append.mpr (Or.inl hq), hqk⟩
    · rw [if_neg hc]
      exact ⟨q, hq, hqk⟩

theorem stage_canal_staged (cache : DimCache)
    (l : List AtendimentoTransacionalImportSchema) :
    ∀ (acc : StagedDims), ∀ data ∈ l,
      (dictGet? cache.canais data.canal_nome).isNone = true →
      data.canal_nome ∈ (l.foldl (stageStep cache) acc).newCanais := by
  induction l with
  | nil =>
    intro acc data h _
    exact absurd h (List.not_mem_nil data)
  | cons r t ih =>
    intro acc data hmem hnone
    rw [List.foldl_cons]
    rcases List.mem_cons.mp hmem with h1 | h1
    · subst h1
      refine stageFold_canal_mono cache t _ _ ?_
      rw [stageStep_newCanais]
      by_cases hc : (dictGet? cache.canais data.canal_nome).isNone = true ∧
          ¬ acc.newCanais.contains data.canal_nome = true
      · rw [if_pos hc]
        exact List.mem_append.mpr (Or.inr (List.mem_singleton.mpr rfl))
      · rw [if_neg hc]
        have h2 : acc.newCanais.contains data.canal_nome = true := by
          by_contra h3
          exact hc ⟨hnone, h3⟩
        exact List.mem_of_elem_eq_true h2
    · exact ih _ data h1 hnone

theorem stage_status_staged (cache : DimCache)
    (l : List AtendimentoTransacionalImportSchema) :
    ∀ (acc : StagedDims), ∀ data ∈ l,
      (dictGet? cache.statusCache data.status_nome).isNone = true →
      data.status_nome ∈ (l.foldl (stageStep cache) acc).newStatus := by
  induction l with
  | nil =>
    intro acc data h _
    exact absurd h (List.not_mem_nil data)
  | cons r t ih =>
    intro acc data hmem hnone
    rw [List.foldl_cons]
    rcases List.mem_cons.mp hmem with h1 | h1
    · subst h1
      refine stageFold_status_mono cache t _ _ ?_
      rw [stageStep_newStatus]
      by_cases hc : (dictGet? cache.statusCache data.status_nome).isNone = true ∧
          ¬ acc.newStatus.contains data.status_nome = true
      · rw [if_pos hc]
        exact List.mem_append.mpr (Or.inr (List.mem_singleton.mpr rfl))
      · rw [if_neg hc]
        have h2 : acc.newStatus.contains data.status_nome = true := by
          by_contra h3
          exact hc ⟨hnone, h3⟩
        exact List.mem_of_elem_eq_true h2
    · exact ih _ data h1 hnone

theorem stage_colab_staged (cache : DimCache)
    (l : List AtendimentoTransacionalImportSchema) :
    ∀ (acc : StagedDims), ∀ data ∈ l,
      (dictGet? cache.colaboradores (resolver_nome data.colaborador_nome)).isNone = true →
      resolver_nome (pyTitle (resolver_nome data.colaborador_nome))
          = resolver_nome data.colaborador_nome →
      ∃ r ∈ (l.foldl (stageStep cache) acc).newCols,
        resolver_nome r.nome = resolver_nome data.colaborador_nome := by
  induction l with
  | nil =>
    intro acc data h _ _
    exact absurd h (List.not_mem_nil data)
  | cons r t ih =>
    intro acc data hmem hnone hrt
    rw [List.foldl_cons]
    rcases List.mem_cons.mp hmem with h1 | h1
    · subst h1
      refine stageFold_colab_mono cache t _ _ ?_
      rw [stageStep_newCols, if_pos hnone]
      by_cases hany : acc.newCols.any
          (fun r2 => resolver_nome r2.nome = resolver_nome data.colaborador_nome) = true
      · rw [if_pos hany]
        obtain ⟨q, hq, hqk⟩ := List.any_eq_true.mp hany
        exact ⟨q, hq, by simpa using hqk⟩
      · rw [if_neg hany]
        exact ⟨⟨pyTitle (resolver_nome data.colaborador_nome), equipeOrSAC data.equipe⟩,
          List.mem_append.mpr (Or.inr (List.mem_singleton.mpr rfl)), hrt⟩
    · exact ih _ data h1 hnone hrt

theorem insertColaboradores_cons (st : Store) (y : NewColab) (t : List NewColab) :
    insertColaboradores st (y :: t)
      = insertColaboradores
          { st with
            colaboradores := st.colaboradores ++ [⟨st.nextColabId, y.nome, some y.equipe, none⟩]
            nextColabId := st.nextColabId + 1 } t := by
  unfold insertColaboradores
  rw [List.foldl_cons]

theorem insertCanais_cons (st : Store) (y : String) (t : List String) :
    insertCanais st (y :: t)
      = insertCanais
          (if st.canais.any (fun c => c.nome = y) then st
           else { st with
             canais := st.canais ++ [⟨st.nextCanalId, y⟩]
             nextCanalId := st.nextCanalId + 1 }) t := by
  unfold insertCanais
  rw [List.foldl_cons]

theorem insertStatus_cons (st : Store) (y : String) (t : List String) :
    insertStatus st (y :: t)
      = insertStatus
          (if st.statusDim.any (fun c => c.nome = y) then st
           else { st with
             statusDim := st.statusDim ++ [⟨st.nextStatusId, y⟩]
             nextStatusId := st.nextStatusId + 1 }) t := by
  unfold insertStatus
  rw [List.foldl_cons]

theorem insertColaboradores_mem_mono (l : List NewColab) :
    ∀ (st : Store) (c : DimColaborador), c ∈ st.colaboradores →
      c ∈ (insertColaboradores st l).colaboradores := by
  induction l with
  | nil =>
    intro st c h
    exact h
  | cons y t ih =>
    intro st c h
    rw [insertColaboradores_cons]
    exact ih _ c (List.mem_append.mpr (Or.inl h))

theorem insertCanais_mem_mono (l : List String) :
    ∀ (st : Store) (c : DimSimple), c ∈ st.canais → c ∈ (insertCanais st l).canais := by
  induction l with
  | nil =>
    intro st c h
    exact h
  | cons y t ih =>
    intro st c h
    rw [insertCanais_cons]
    by_cases hy : st.canais.any (fun c => c.nome = y) = true
    · rw [if_pos hy]
      exact ih st c h
    · rw [if_neg hy]
      exact ih _ c (List.mem_append.mpr (Or.inl h))

theorem insertStatus_mem_mono (l : List String) :
    ∀ (st : Store) (c : DimSimple), c ∈ st.statusDim → c ∈ (insertStatus st l).statusDim := by
  induction l with
  | nil =>
    intro st c h
    exact h
  | cons y t ih =>
    intro st c h
    rw [insertStatus_cons]
    by_cases hy : st.statusDim.any (fun c => c.nome = y) = true
    · rw [if_pos hy]
      exact ih st c h
    · rw [if_neg hy]
      exact ih _ c (List.mem_append.mpr (Or.inl h))

theorem insertColaboradores_staged (l : List NewColab) :
    ∀ (st : Store), ∀ r ∈ l,
      ∃ c ∈ (insertColaboradores st l).colaboradores, c.nome = r.nome := by
  induction l with
  | nil =>
    intro st r h
    exact absurd h (List.not_mem_nil r)
  | cons y t ih =>
    intro st r hr
    rw [insertColaboradores_cons]
    rcases List.mem_cons.mp hr with h1 | h1
    · subst h1
      refine ⟨⟨st.nextColabId, r.nome, some r.equipe, none⟩, ?_, rfl⟩
      refine insertColaboradores_mem_mono t _ _ ?_
      exact List.mem_append.mpr (Or.inr (List.mem_singleton.mpr rfl))
    · exact ih _ r h1

theorem insertCanais_staged (l : List String) :
    ∀ (st : Store), ∀ n ∈ l, ∃ c ∈ (insertCanais st l).canais, c.nome = n := by
  induction l with
  | nil =>
    intro st n h
    exact absurd h (List.not_mem_nil n)
  | cons y t ih =>
    intro st n hn
    rw [insertCanais_cons]
    rcases List.mem_cons.mp hn with h1 | h1
    · subst h1
      by_cases hy : st.canais.any (fun c => c.nome = n) = true
      · rw [if_pos hy]
        obtain ⟨c, hc, hcn⟩ := List.any_eq_true.mp hy
        exact ⟨c, insertCanais_mem_mono t st c hc, by simpa using hcn⟩
      · rw [if_neg hy]
        refine ⟨⟨st.nextCanalId, n⟩, ?_, rfl⟩
        refine insertCanais_mem_mono t _ _ ?_
        exact List.mem_append.mpr (Or.inr (List.mem_singleton.mpr rfl))
    · exact ih _ n h1

theorem insertStatus_staged (l : List String) :
    ∀ (st : Store), ∀ n ∈ l, ∃ c ∈ (insertStatus st l).statusDim, c.nome = n := by
  induction l with
  | nil =>
    intro st n h
    exact absurd h (List.not_mem_nil n)
  | cons y t ih =>
    intro st n hn
    rw [insertStatus_cons]
    rcases List.mem_cons.mp hn with h1 | h1
    · subst h1
      by_cases hy : st.statusDim.any (fun c => c.nome = n) = true
      · rw [if_pos hy]
        obtain ⟨c, hc, hcn⟩ := List.any_eq_true.mp hy
        exact ⟨c, insertStatus_mem_mono t st c hc, by simpa using hcn⟩
      · rw [if_neg hy]
        refine ⟨⟨st.nextStatusId, n⟩, ?_, rfl⟩
        refine insertStatus_mem_mono t _ _ ?_
        exact List.mem_append.mpr (Or.inr (List.mem_singleton.mpr rfl))
    · exact ih _ n h1

theorem insertCanais_colaboradores (l : List String) :
    ∀ st : Store, (insertCanais st l).colaboradores = st.colaboradores := by
  induction l with
  | nil => intro st; rfl
  | cons y t ih =>
    intro st
    rw [insertCanais_cons]
    by_cases hy : st.canais.any (fun c => c.nome = y) = true
    · rw [if_pos hy]
      exact ih st
    · rw [if_neg hy]
      exact ih _

theorem insertStatus_colaboradores (l : List String) :
    ∀ st : Store, (insertStatus st l).colaboradores = st.colaboradores := by
  induction l with
  | nil => intro st; rfl
  | cons y t ih =>
    intro st
    rw [insertStatus_cons]
    by_cases hy : st.statusDim.any (fun c => c.nome = y) = true
    · rw [if_pos hy]
      exact ih st
    · rw [if_neg hy]
      exact ih _

theorem insertStatus_canais (l : List String) :
    ∀ st : Store, (insertStatus st l).canais = st.canais := by
  induction l with
  | nil => intro st; rfl
  | cons y t ih =>
    intro st
    rw [insertStatus_cons]
    by_cases hy : st.statusDim.any (fun c => c.nome = y) = true
    · rw [if_pos hy]
      exact ih st
    · rw [if_neg hy]
      exact ih _

theorem flush_canais_isSome (st : Store) (cache : DimCache) (newCols : List NewColab)
    (newCanais newStatus : List String) (n : String)
    (h : (dictGet? cache.canais n).isSome = true ∨ n ∈ newCanais) :
    (dictGet? (_flush_new_dims st cache newCols newCanais newStatus).2.canais n).isSome
      = true := by
  unfold _flush_new_dims
  dsimp only
  rw [dictGet?_isSome_iff]
  rcases h with h | h
  · exact foldlUpdate_preserve (fun c => c.nome) _ _ _ ((dictGet?_isSome_iff _ _).mp h)
  · obtain ⟨c, hc, hcn⟩ := insertCanais_staged newCanais (insertColaboradores st newCols) n h
    refine foldlUpdate_mem (fun c => c.nome) _ _ _ ⟨c, ?_, hcn⟩
    rw [List.mem_filter]
    refine ⟨?_, ?_⟩
    · rw [insertStatus_canais]
      exact hc
    · rw [hcn]
      exact List.elem_eq_true_of_mem h

theorem flush_status_isSome (st : Store) (cache : DimCache) (newCols : List NewColab)
    (newCanais newStatus : List String) (n : String)
    (h : (dictGet? cache.statusCache n).isSome = true ∨ n ∈ newStatus) :
    (dictGet? (_flush_new_dims st cache newCols newCanais newStatus).2.statusCache n).isSome
      = true := by
  unfold _flush_new_dims
  dsimp only
  rw [dictGet?_isSome_iff]
  rcases h with h | h
  · exact foldlUpdate_preserve (fun s => s.nome) _ _ _ ((dictGet?_isSome_iff _ _).mp h)
  · obtain ⟨c, hc, hcn⟩ := insertStatus_staged newStatus
      (insertCanais (insertColaboradores st newCols) newCanais) n h
    refine foldlUpdate_mem (fun s => s.nome) _ _ _ ⟨c, ?_, hcn⟩
    rw [List.mem_filter]
    refine ⟨hc, ?_⟩
    · rw [hcn]
      exact List.elem_eq_true_of_mem h

theorem foldlUpdateRes_preserve (L : List DimColaborador) :
    ∀ (d : List (String × DimColaborador)) (k : String), (∃ p ∈ d, p.1 = k) →
      ∃ p ∈ L.foldl (fun d c => dictUpdate d (resolver_nome c.nome) c) d, p.1 = k := by
  induction L with
  | nil =>
    intro d k h
    simpa using h
  | cons y t ih =>
    intro d k h
    rw [List.foldl_cons]
    exact ih _ k (dictUpdate_preserve (resolver_nome y.nome) y h)

theorem foldlUpdateRes_mem (L : List DimColaborador) :
    ∀ (d : List (String × DimColaborador)) (k : String),
      (∃ x ∈ L, resolver_nome x.nome = k) →
      ∃ p ∈ L.foldl (fun d c => dictUpdate d (resolver_nome c.nome) c) d, p.1 = k := by
  induction L with
  | nil =>
    intro d k h
    rcases h with ⟨x, hx, _⟩
    exact absurd hx (List.not_mem_nil x)
  | cons y t ih =>
    intro d k h
    rw [List.foldl_cons]
    rcases h with ⟨x, hx, hxk⟩
    rcases List.mem_cons.mp hx with h1 | h1
    · subst h1
      refine foldlUpdateRes_preserve t _ k ?_
      obtain ⟨p, hp, hpk⟩ := dictUpdate_key_mem d (resolver_nome x.nome) x
      exact ⟨p, hp, hpk.trans hxk⟩
    · exact ih _ k ⟨x, h1, hxk⟩

theorem flush_colab_isSome (st : Store) (cache : DimCache) (newCols : List NewColab)
    (newCanais newStatus : List String) (k : String)
    (h : (dictGet? cache.colaboradores k).isSome = true ∨
      ∃ r ∈ newCols, resolver_nome r.nome = k) :
    (dictGet? (_flush_new_dims st cache newCols newCanais newStatus).2.colaboradores k).isSome
      = true := by
  unfold _flush_new_dims
  dsimp only
  rw [dictGet?_isSome_iff]
  rcases h with h | ⟨r, hr, hrk⟩
  · exact foldlUpdateRes_preserve _ _ k ((dictGet?_isSome_iff cache.colaboradores k).mp h)
  · obtain ⟨c, hc, hcn⟩ := insertColaboradores_staged newCols st r hr
    refine foldlUpdateRes_mem _ _ k ⟨c, ?_, by rw [hcn]; exact hrk⟩
    rw [List.mem_filter]
    refine ⟨?_, ?_⟩
    · rw [insertStatus_colaboradores, insertCanais_colaboradores]
      exact hc
    · exact List.any_eq_true.mpr ⟨r, hr, by simp [hcn]⟩

/-- The cache state `process_transacional_batch` works with after staging
and flushing the new dimension values of a batch (its first three `let`s). -/
def transFlushed (st : Store) (registros : List AtendimentoTransacionalImportSchema) :
    Store × DimCache :=
  let cache := _build_dim_cache st
  let staged := stageNewDims cache registros
  _flush_new_dims st cache staged.newCols staged.newCanais staged.newStatus

/-- C4 (amended): after the `_flush_new_dims` refresh, every channel and
status value of the batch resolves via the cache, and an employee value
resolves provided its resolver key survives the title-casing round trip
applied at staging time; when a lookup still fails, the row is surfaced as
a per-row data error (`ValueError` caught by the row's handler, message
`dimNaoEncontrada`) — not as a batch-fatal condition: with a succeeding
commit the batch always returns a normal result.  (The original claim is
refuted by `trans_dim_falha_e_por_linha`.) -/
theorem trans_pos_refresh_resolucao :
    (∀ (st : Store) (registros : List AtendimentoTransacionalImportSchema),
      ∀ data ∈ registros,
        ((dictGet? (transFlushed st registros).2.canais data.canal_nome).isSome = true) ∧
        ((dictGet? (transFlushed st registros).2.statusCache data.status_nome).isSome = true) ∧
        (resolver_nome (pyTitle (resolver_nome data.colaborador_nome))
            = resolver_nome data.colaborador_nome →
          (dictGet? (transFlushed st registros).2.colaboradores
              (resolver_nome data.colaborador_nome)).isSome = true)) ∧
    (∀ (cache : DimCache) (protocolos : List String)
        (data : AtendimentoTransacionalImportSchema),
      dictGet? cache.colaboradores (resolver_nome data.colaborador_nome) = none →
      transRowStep cache protocolos data = TransRowOut.dup ∨
      transRowStep cache protocolos data = TransRowOut.err dimNaoEncontrada) ∧
    (∀ (st : Store) (registros : List AtendimentoTransacionalImportSchema)
        (protocolos : List String),
      ∃ res st', process_transacional_batch st registros protocolos false
        = BatchOut.ok res st') := by
  refine ⟨?_, ?_, ?_⟩
  · intro st registros data hmem
    refine ⟨?_, ?_, ?_⟩
    · show (dictGet? (_flush_new_dims st (_build_dim_cache st)
          (stageNewDims (_build_dim_cache st) registros).newCols
          (stageNewDims (_build_dim_cache st) registros).newCanais
          (stageNewDims (_build_dim_cache st) registros).newStatus).2.canais
          data.canal_nome).isSome = true
      by_cases hc : (dictGet? (_build_dim_cache st).canais data.canal_nome).isSome = true
      · exact flush_canais_isSome st (_build_dim_cache st) _ _ _ data.canal_nome (Or.inl hc)
      · have hnone : (dictGet? (_build_dim_cache st).canais data.canal_nome).isNone = true := by
          cases hx : dictGet? (_build_dim_cache st).canais data.canal_nome with
          | none => rfl
          | some v =>
            rw [hx] at hc
            exact absurd rfl hc
        refine flush_canais_isSome st (_build_dim_cache st) _ _ _ data.canal_nome (Or.inr ?_)
        rw [stageNewDims_eq_foldl]
        exact stage_canal_staged (_build_dim_cache st) registros ⟨[], [], [], []⟩ data hmem hnone
    · show (dictGet? (_flush_new_dims st (_build_dim_cache st)
          (stageNewDims (_build_dim_cache st) registros).newCols
          (stageNewDims (_build_dim_cache st) registros).newCanais
          (stageNewDims (_build_dim_cache st) registros).newStatus).2.statusCache
          data.status_nome).isSome = true
      by_cases hc : (dictGet? (_build_dim_cache st).statusCache data.status_nome).isSome = true
      · exact flush_status_isSome st (_build_dim_cache st) _ _ _ data.status_nome (Or.inl hc)
      · have hnone : (dictGet? (_build_dim_cache st).statusCache data.status_nome).isNone
            = true := by
          cases hx : dictGet? (_build_dim_cache st).statusCache data.status_nome with
          | none => rfl
          | some v =>
            rw [hx] at hc
            exact absurd rfl hc
        refine flush_status_isSome st (_build_dim_cache st) _ _ _ data.status_nome (Or.inr ?_)
        rw [stageNewDims_eq_foldl]
        exact stage_status_staged (_build_dim_cache st) registros ⟨[], [], [], []⟩ data hmem hnone
    · intro hrt
      show (dictGet? (_flush_new_dims st (_build_dim_cache st)
          (stageNewDims (_build_dim_cache st) registros).newCols
          (stageNewDims (_build_dim_cache st) registros).newCanais
          (stageNewDims (_build_dim_cache st) registros).newStatus).2.colaboradores
          (resolver_nome data.colaborador_nome)).isSome = true
      by_cases hc : (dictGet? (_build_dim_cache st).colaboradores
          (resolver_nome data.colaborador_nome)).isSome = true
      · exact flush_colab_isSome st (_build_dim_cache st) _ _ _
          (resolver_nome data.colaborador_nome) (Or.inl hc)
      · have hnone : (dictGet? (_build_dim_cache st).colaboradores
            (resolver_nome data.colaborador_nome)).isNone = true := by
          cases hx : dictGet? (_build_dim_cache st).colaboradores
              (resolver_nome data.colaborador_nome) with
          | none => rfl
          | some v =>
            rw [hx] at hc
            exact absurd rfl hc
        refine flush_colab_isSome st (_build_dim_cache st) _ _ _
          (resolver_nome data.colaborador_nome) (Or.inr ?_)
        rw [stageNewDims_eq_foldl]
        exact stage_colab_staged (_build_dim_cache st) registros ⟨[], [], [], []⟩ data hmem
          hnone hrt
  · intro cache protocolos data hnone
    by_cases hdup : (match data.protocolo with
        | some p => p ≠ "" && protocolos.contains p
        | none => false) = true
    · left
      unfold transRowStep
      rw [if_pos hdup]
    · right
      unfold transRowStep
      rw [if_neg hdup, hnone]
  · intro st registros protocolos
    exact ⟨_, _, rfl⟩

/-- A transactional record whose employee name "B 1234 5678" loses a digit
group per normalisation pass: staging keys it as "B 1234", the flush
re-resolves the inserted title-cased row to "B". -/
def dtoB : AtendimentoTransacionalImportSchema :=
  ⟨⟨2024, 3, 15, 14, 30, 0⟩, "B 1234 5678", none, "Chat", "Resolvido", some "P9",
    none, 0, 0, none, none⟩

/-- The store left by the counterexample batch: the staged row was inserted
(under the once-stripped name) but no fact was, and the ledger row of
`storeVazia` is untouched. -/
def storeB : Store :=
  ⟨[⟨1, "B 1234", some "SAC", none⟩], [⟨1, "Chat"⟩], [⟨1, "Resolvido"⟩], [], [],
    [⟨0, "planilha.csv", "hash0", some "pending", none, none, none, none, none⟩], 2, 2, 2⟩

/-- C4 counterexample: the employee value "B 1234 5678" does NOT resolve via
the cache after `_flush_new_dims` (the claim says every batch value must),
and the failure is counted as a per-row data error — `error_count = 1`, the
row's message is the caught `ValueError` — while the batch returns a normal
result instead of surfacing a logic-fatal condition. -/
theorem trans_dim_falha_e_por_linha :
    dictGet? (transFlushed storeVazia [dtoB]).2.colaboradores
        (resolver_nome dtoB.colaborador_nome) = none ∧
    process_transacional_batch storeVazia [dtoB] [] false
      = BatchOut.ok ⟨0, 1, 0, 0, [(1, dimNaoEncontrada)], ["B 1234 5678"], []⟩ storeB := by
  constructor
  · rfl
  · rfl

/-- C4 witness: the amended theorem applied at the concrete counterexample
batch — channel "Chat" and status "Resolvido" resolve after the refresh,
the unresolved employee row surfaces as a per-row outcome, and the batch
returns normally. -/
theorem trans_pos_refresh_resolucao_witness :
    ((dictGet? (transFlushed storeVazia [dtoB]).2.canais dtoB.canal_nome).isSome = true) ∧
    ((dictGet? (transFlushed storeVazia [dtoB]).2.statusCache dtoB.status_nome).isSome
      = true) ∧
    (transRowStep (_build_dim_cache storeVazia) [] dtoB = TransRowOut.dup ∨
      transRowStep (_build_dim_cache storeVazia) [] dtoB
        = TransRowOut.err dimNaoEncontrada) ∧
    (∃ res st', process_transacional_batch storeVazia [dtoB] [] false
      = BatchOut.ok res st') := by
  refine ⟨(trans_pos_refresh_resolucao.1 storeVazia [dtoB] dtoB ?_).1,
    (trans_pos_refresh_resolucao.1 storeVazia [dtoB] dtoB ?_).2.1,
    trans_pos_refresh_resolucao.2.1 (_build_dim_cache storeVazia) [] dtoB ?_,
    trans_pos_refresh_resolucao.2.2 storeVazia [dtoB] []⟩
  · decide
  · decide
  · rfl

/-! ## C1 — protocol dedup across resubmission -/

/-- First submission of the one-row transactional file carrying protocol
"P1", against a store already holding every needed dimension. -/
def c1run1 : UploadOutcome :=
  uploadProcessStage hoje agora (fun _ => false) storeComDims 0 omniHeaders [omniRow1] none hoje

/-- The store the first submission leaves behind. -/
def c1st1 : Store := outcomeStore c1run1

/-- The identical resubmission of the same file. -/
def c1run2 : UploadOutcome :=
  uploadProcessStage hoje agora (fun _ => false) c1st1 0 omniHeaders [omniRow1] none hoje

/-- C1: the protocol-dedup/resubmission contract never gets a chance to
hold.  Because the pydantic schema lacks the `turno` field the batch writer
reads, every transactional row errors (`AttributeError` at `data.turno`)
and no Interaction Fact is ever inserted: the first run of a 1-row file
with protocol "P1" ends with status "error" (0 successes, 1 error) and an
empty fact table, so `carregar_protocolos_existentes` finds nothing on the
resubmission and the second run repeats the same outcome — its
`duplicate_count` is 0, not the claimed "number of rows carrying a
protocol" (= 1), and `success_count == 0` holds only because every row
errored. -/
theorem protocolo_resubmissao_sem_dedup :
    outcomeCounts c1run1 = some ("error", 0, 0, 0, 1) ∧
    c1st1.fatos = [] ∧
    (match c1run1 with
      | UploadOutcome.resposta _ d _ => d.errors
      | _ => []) = [(1, attributeErrTurno)] ∧
    outcomeCounts c1run2 = some ("error", 0, 0, 0, 1) ∧
    (outcomeStore c1run2).fatos = [] ∧
    ([omniRow1].filter (fun row => pyStrip (rowOr row "Número do Protocolo" "") ≠ "")).length
      = 1 := by
  refine ⟨by rfl, by rfl, by rfl, by rfl, by rfl, by decide⟩

/-! ## C2 — transactional atomicity vs per-chunk commits -/

theorem uploadRowStep_small (now : PyDateTime) (failAt : Nat → Bool)
    (isV isO isL : Bool) (vdr : Option PyDate) (protos : List String)
    (acc : LoopAcc) (row : Row)
    (h : acc.chunkTrans.length + acc.chunkVoalle.length + 1 < CHUNK_SIZE) :
    ((uploadRowStep now failAt isV isO isL vdr protos acc row).st = acc.st) ∧
    ((uploadRowStep now failAt isV isO isL vdr protos acc row).flushIdx = acc.flushIdx) ∧
    ((uploadRowStep now failAt isV isO isL vdr protos acc row).chunkTrans.length
        + (uploadRowStep now failAt isV isO isL vdr protos acc row).chunkVoalle.length
      ≤ acc.chunkTrans.length + acc.chunkVoalle.length + 1) := by
  simp only [CHUNK_SIZE] at h
  unfold uploadRowStep
  dsimp only
  cases hp : parse_row_to_dto now row isV isO isL vdr with
  | error m =>
    dsimp only
    exact ⟨rfl, rfl, by omega⟩
  | ok o =>
    cases o with
    | none =>
      dsimp only
      exact ⟨rfl, rfl, by omega⟩
    | some dto =>
      cases dto with
      | trans d =>
        dsimp only
        cases hpr : d.protocolo with
        | some p =>
          dsimp only
          by_cases hpe : p = ""
          · rw [if_neg (not_not_intro hpe)]
            rw [if_neg (by
              simp only [CHUNK_SIZE, List.length_append, List.length_cons, List.length_nil,
                not_or, not_le]
              omega)]
            refine ⟨rfl, rfl, ?_⟩
            simp only [List.length_append, List.length_cons, List.length_nil]
            omega
          · rw [if_pos hpe]
            by_cases hdup : acc.vistos.contains p ∨ protos.contains p
            · rw [if_pos hdup]
              exact ⟨rfl, rfl, by dsimp only; omega⟩
            · rw [if_neg hdup]
              rw [if_neg (by
                simp only [CHUNK_SIZE, List.length_append, List.length_cons, List.length_nil,
                  not_or, not_le]
                omega)]
              refine ⟨rfl, rfl, ?_⟩
              simp only [List.length_append, List.length_cons, List.length_nil]
              omega
        | none =>
          dsimp only
          rw [if_neg (by
            simp only [CHUNK_SIZE, List.length_append, List.length_cons, List.length_nil,
              not_or, not_le]
            omega)]
          refine ⟨rfl, rfl, ?_⟩
          simp only [List.length_append, List.length_cons, List.length_nil]
          omega
      | voalle d =>
        dsimp only
        rw [if_neg (by
          simp only [CHUNK_SIZE, List.length_append, List.length_cons, List.length_nil,
            not_or, not_le]
          omega)]
        refine ⟨rfl, rfl, ?_⟩
        simp only [List.length_append, List.length_cons, List.length_nil]
        omega

theorem uploadFold_small (now : PyDateTime) (failAt : Nat → Bool)
    (isV isO isL : Bool) (vdr : Option PyDate) (protos : List String)
    (l : List Row) :
    ∀ acc : LoopAcc,
      acc.chunkTrans.length + acc.chunkVoalle.length + l.length < CHUNK_SIZE →
      ((l.foldl (uploadRowStep now failAt isV isO isL vdr protos) acc).st = acc.st) ∧
      ((l.foldl (uploadRowStep now failAt isV isO isL vdr protos) acc).flushIdx
        = acc.flushIdx) ∧
      ((l.foldl (uploadRowStep now failAt isV isO isL vdr protos) acc).chunkTrans.length
          + (l.foldl (uploadRowStep now failAt isV isO isL vdr protos) acc).chunkVoalle.length
        ≤ acc.chunkTrans.length + acc.chunkVoalle.length + l.length) := by
  induction l with
  | nil =>
    intro acc h
    exact ⟨rfl, rfl, by simp⟩
  | cons r t ih =>
    intro acc h
    rw [List.length_cons] at h
    obtain ⟨s1, s2, s3⟩ := uploadRowStep_small now failAt isV isO isL vdr protos acc r
      (by omega)
    obtain ⟨i1, i2, i3⟩ := ih (uploadRowStep now failAt isV isO isL vdr protos acc r)
      (by omega)
    rw [List.foldl_cons]
    refine ⟨i1.trans s1, i2.trans s2, ?_⟩
    simp only [List.length_cons]
    omega

theorem process_trans_commitFails (st : Store)
    (regs : List AtendimentoTransacionalImportSchema) (protos : List String) :
    process_transacional_batch st regs protos true = BatchOut.raised st := rfl

theorem flushChunkTrans_empty (failAt : Nat → Bool) (protos : List String)
    (acc : LoopAcc) (h : acc.chunkTrans = []) :
    flushChunkTrans failAt protos acc = (acc, false) := by
  unfold flushChunkTrans
  rw [if_pos h]

theorem flushChunkTrans_raised (failAt : Nat → Bool) (protos : List String)
    (acc : LoopAcc) (h : ¬ acc.chunkTrans = []) (h2 : failAt acc.flushIdx = true) :
    flushChunkTrans failAt protos acc
      = ({ acc with flushIdx := acc.flushIdx + 1 }, true) := by
  unfold flushChunkTrans
  rw [if_neg h, h2, process_trans_commitFails]

/-- The protocol preload `upload_csv` computes for a transactional file
(the `protocolos_banco` set), named for reasoning. -/
def protosOf (st0 : Store) (rows : List Row) : List String :=
  if (rows.filterMap fun row =>
        if pyStrip
            (match rowOrNone row "Número do Protocolo" with
             | some v => v
             | none => rowOr row "Protocolo" "") ≠ "" then
          some (pyStrip
            (match rowOrNone row "Número do Protocolo" with
             | some v => v
             | none => rowOr row "Protocolo" ""))
        else none) ≠ [] then
    carregar_protocolos_existentes st0 (rows.filterMap fun row =>
        if pyStrip
            (match rowOrNone row "Número do Protocolo" with
             | some v => v
             | none => rowOr row "Protocolo" "") ≠ "" then
          some (pyStrip
            (match rowOrNone row "Número do Protocolo" with
             | some v => v
             | none => rowOr row "Protocolo" ""))
        else none)
  else []

/-- C2 (amended): commits are per chunk, not per file.  For a transactional
file smaller than one chunk (< 6000 rows) the final flush is the only
write, so with the storage failing at the first commit attempt every data
table is left exactly as it was — the only mutation is the upload-ledger
update — and when the failure surfaces as a 500 the ledger record is
marked `error` with the sanitized batch message.  (Whole-file atomicity is
refuted for multi-chunk files by `upload_multichunk_nao_atomico`.) -/
theorem upload_unichunk_atomico :
    ∀ (today : PyDate) (now : PyDateTime) (failAt : Nat → Bool) (st0 : Store) (uid : Nat)
      (rows : List Row) (dv : Option String) (fd : PyDate),
      rows.length < CHUNK_SIZE →
      failAt 0 = true →
      ((outcomeStore (uploadProcessStage today now failAt st0 uid omniHeaders rows dv
          fd)).colaboradores = st0.colaboradores ∧
        (outcomeStore (uploadProcessStage today now failAt st0 uid omniHeaders rows dv
          fd)).canais = st0.canais ∧
        (outcomeStore (uploadProcessStage today now failAt st0 uid omniHeaders rows dv
          fd)).statusDim = st0.statusDim ∧
        (outcomeStore (uploadProcessStage today now failAt st0 uid omniHeaders rows dv
          fd)).fatos = st0.fatos ∧
        (outcomeStore (uploadProcessStage today now failAt st0 uid omniHeaders rows dv
          fd)).fatosVoalle = st0.fatosVoalle) ∧
      (∀ st', uploadProcessStage today now failAt st0 uid omniHeaders rows dv fd
          = UploadOutcome.serverError st' →
        st' = updateUpload st0 uid (fun u =>
          { u with
            status := some "error"
            processed_at := some now
            error := some erroLoteTrans })) := by
  intro today now failAt st0 uid rows dv fd hlen hfail
  unfold uploadProcessStage
  dsimp only
  by_cases hrows : rows = []
  · rw [if_pos hrows]
    exact ⟨⟨rfl, rfl, rfl, rfl, rfl⟩, fun st' h => UploadOutcome.noConfusion h⟩
  · rw [if_neg hrows]
    rw [if_neg (by decide)]
    rw [if_neg (by decide)]
    dsimp only
    rw [if_neg (by decide)]
    by_cases hval : pre_validar_planilha today rows (detect_format omniHeaders).1
        (detect_format omniHeaders).2.1 (detect_format omniHeaders).2.2 = []
    · rw [if_neg (not_not_intro hval)]
      have hPe : (if ¬(detect_format omniHeaders).1 = true then
            (if (rows.filterMap fun row =>
                  if pyStrip
                      (match rowOrNone row "Número do Protocolo" with
                       | some v => v
                       | none => rowOr row "Protocolo" "") ≠ "" then
                    some (pyStrip
                      (match rowOrNone row "Número do Protocolo" with
                       | some v => v
                       | none => rowOr row "Protocolo" ""))
                  else none) ≠ [] then
              carregar_protocolos_existentes st0 (rows.filterMap fun row =>
                  if pyStrip
                      (match rowOrNone row "Número do Protocolo" with
                       | some v => v
                       | none => rowOr row "Protocolo" "") ≠ "" then
                    some (pyStrip
                      (match rowOrNone row "Número do Protocolo" with
                       | some v => v
                       | none => rowOr row "Protocolo" ""))
                  else none)
            else [])
          else []) = protosOf st0 rows := by
        rw [if_pos (show ¬(detect_format omniHeaders).1 = true by decide)]
        rfl
      rw [hPe]
      obtain ⟨f1, f2, f3⟩ := uploadFold_small now failAt (detect_format omniHeaders).1
        (detect_format omniHeaders).2.1 (detect_format omniHeaders).2.2 none
        (protosOf st0 rows) rows ⟨st0, [], [], [], [], 0, 0, 0, 0, 0, [], 1⟩
        (by simpa using hlen)
      rw [if_neg (show ¬(detect_format omniHeaders).1 = true by decide)]
      by_cases hch : (rows.foldl (uploadRowStep now failAt (detect_format omniHeaders).1
          (detect_format omniHeaders).2.1 (detect_format omniHeaders).2.2 none
          (protosOf st0 rows)) ⟨st0, [], [], [], [], 0, 0, 0, 0, 0, [], 1⟩).chunkTrans = []
      · rw [flushChunkTrans_empty failAt (protosOf st0 rows) _ hch]
        dsimp only
        rw [if_neg (show ¬false = true by decide)]
        dsimp only [outcomeStore]
        refine ⟨⟨?_, ?_, ?_, ?_, ?_⟩, fun st' h => UploadOutcome.noConfusion h⟩
        · rw [f1]
          rfl
        · rw [f1]
          rfl
        · rw [f1]
          rfl
        · rw [f1]
          rfl
        · rw [f1]
          rfl
      · rw [flushChunkTrans_raised failAt (protosOf st0 rows) _ hch (by rw [f2]; exact hfail)]
        dsimp only
        rw [if_pos (show (true : Bool) = true from rfl)]
        dsimp only [outcomeStore]
        refine ⟨⟨?_, ?_, ?_, ?_, ?_⟩, ?_⟩
        · rw [f1]
          rfl
        · rw [f1]
          rfl
        · rw [f1]
          rfl
        · rw [f1]
          rfl
        · rw [f1]
          rfl
        · intro st' h
          injection h with h1
          rw [← h1, f1]
          rfl
    · rw [if_pos hval]
      exact ⟨⟨rfl, rfl, rfl, rfl, rfl⟩, fun st' h => UploadOutcome.noConfusion h⟩

theorem foldl_const_fixed {α β : Type} (f : α → β → α) (x : β) (a : α) (hf : f a x = a) :
    ∀ n : Nat, (List.replicate n x).foldl f a = a := by
  intro n
  induction n with
  | zero => rfl
  | succ m ih =>
    rw [List.replicate_succ, List.foldl_cons, hf]
    exact ih

theorem rangeShiftErr (i n : Nat) (m : String) :
    (i, m) :: (List.range n).map (fun j => (i + 1 + j, m))
      = (List.range (n + 1)).map (fun j => (i + j, m)) := by
  rw [List.range_succ_eq_map, List.map_cons, List.map_map]
  have h1 : ((i, m) : Nat × String) = (i + 0, m) := by simp
  have h2 : (List.range n).map (fun j => (i + 1 + j, m))
      = (List.range n).map ((fun j => (i + j, m)) ∘ Nat.succ) := by
    refine List.map_congr_left ?_
    intro a ha
    show ((i + 1 + a, m) : Nat × String) = (i + (a + 1), m)
    rw [Prod.mk.injEq]
    exact ⟨by omega, rfl⟩
  rw [← h1, ← h2]

theorem transFold_err (cache : DimCache) (protos : List String)
    (dto : AtendimentoTransacionalImportSchema) (m : String)
    (hstep : transRowStep cache protos dto = TransRowOut.err m) :
    ∀ (n : Nat) (acc : TransAcc),
      (List.replicate n dto).foldl
        (fun (acc : TransAcc) data =>
          match transRowStep cache protos data with
          | TransRowOut.dup => { acc with i := acc.i + 1, dup := acc.dup + 1 }
          | TransRowOut.err m2 =>
            { acc with
              i := acc.i + 1
              errorC := acc.errorC + 1
              erros := acc.erros ++ [(acc.i, m2)] }) acc
      = { i := acc.i + n
          success := acc.success
          errorC := acc.errorC + n
          dup := acc.dup
          erros := acc.erros ++ (List.range n).map (fun j => (acc.i + j, m))
          colabIds := acc.colabIds
          fatosIns := acc.fatosIns } := by
  intro n
  induction n with
  | zero =>
    intro acc
    simp
  | succ k ih =>
    intro acc
    rw [List.replicate_succ, List.foldl_cons, hstep]
    rw [ih]
    dsimp only
    rw [List.append_assoc, List.singleton_append, rangeShiftErr]
    congr 1 <;> omega

theorem protosOf_spec (st0 : Store) (rows : List Row) :
    (if ¬(detect_format omniHeaders).1 = true then
        (if (rows.filterMap fun row =>
              if pyStrip
                  (match rowOrNone row "Número do Protocolo" with
                   | some v => v
                   | none => rowOr row "Protocolo" "") ≠ "" then
                some (pyStrip
                  (match rowOrNone row "Número do Protocolo" with
                   | some v => v
                   | none => rowOr row "Protocolo" ""))
              else none) ≠ [] then
          carregar_protocolos_existentes st0 (rows.filterMap fun row =>
              if pyStrip
                  (match rowOrNone row "Número do Protocolo" with
                   | some v => v
                   | none => rowOr row "Protocolo" "") ≠ "" then
                some (pyStrip
                  (match rowOrNone row "Número do Protocolo" with
                   | some v => v
                   | none => rowOr row "Protocolo" ""))
              else none)
        else [])
      else []) = protosOf st0 rows := by
  rw [if_pos (show ¬(detect_format omniHeaders).1 = true by decide)]
  rfl

theorem filterMap_replicate_none {α β : Type} (f : α → Option β) (x : α)
    (hf : f x = none) : ∀ n : Nat, (List.replicate n x).filterMap f = [] := by
  intro n
  induction n with
  | zero => rfl
  | succ m ih =>
    rw [List.replicate_succ, List.filterMap_cons, hf]
    exact ih

theorem preValidarAux_replicate (today : PyDate) (isO isL : Bool) (row : Row)
    (hrow : preValidRowErrs today isO isL row = []) :
    ∀ (n : Nat) (idx : Nat),
      preValidarAux today isO isL (List.replicate n row) idx [] = [] := by
  intro n
  induction n with
  | zero => intro idx; rfl
  | succ m ih =>
    intro idx
    rw [List.replicate_succ]
    have hstep : preValidarAux today isO isL (row :: List.replicate m row) idx []
        = preValidarAux today isO isL (List.replicate m row) (idx + 1)
          ([] ++ (preValidRowErrs today isO isL row).map (fun e => (idx, e))) := rfl
    rw [hstep, hrow]
    simp only [List.map_nil, List.append_nil, List.nil_append]
    exact ih (idx + 1)

/-- The storage-failure schedule of the counterexample: the first commit
attempt (flush 0, the in-loop chunk flush) succeeds, the second (the final
flush) fails. -/
def failAtC : Nat → Bool := fun n => n == 1

theorem parse_omniRowNP :
    parse_row_to_dto agora omniRowNP false true false none
      = Except.ok (some (ParsedDto.trans dtoSemAgente)) := rfl

/-- What the staging loop collects from any number of copies of the
protocol-less agent-less row. -/
def stagedNP : StagedDims :=
  ⟨["DESCONHECIDO"], [⟨"Desconhecido", "SAC"⟩], ["WhatsApp"], ["Desconhecido"]⟩

theorem stage6000 :
    stageNewDims (_build_dim_cache storeVazia) (List.replicate 6000 dtoSemAgente)
      = stagedNP := by
  rw [stageNewDims_eq_foldl]
  rw [show List.replicate 6000 dtoSemAgente
      = dtoSemAgente :: List.replicate 5999 dtoSemAgente from rfl]
  rw [List.foldl_cons]
  rw [show stageStep (_build_dim_cache storeVazia) ⟨[], [], [], []⟩ dtoSemAgente
      = stagedNP from rfl]
  exact foldl_const_fixed _ _ _ (by rfl) 5999

/-- The ten capped error messages of the over-full chunk. -/
def attribErrs10 : List (Nat × String) :=
  [(1, attributeErrTurno), (2, attributeErrTurno), (3, attributeErrTurno),
   (4, attributeErrTurno), (5, attributeErrTurno), (6, attributeErrTurno),
   (7, attributeErrTurno), (8, attributeErrTurno), (9, attributeErrTurno),
   (10, attributeErrTurno)]

/-- The store le by the committed first chunk: the staged dimensions are
persisted, no fact is. -/
def stD : Store :=
  ⟨[⟨1, "Desconhecido", some "SAC", none⟩], [⟨1, "WhatsApp"⟩], [⟨1, "Desconhecido"⟩], [], [],
    [⟨0, "planilha.csv", "hash0", some "pending", none, none, none, none, none⟩], 2, 2, 2⟩

/-- The result dict of the committed 6000-row chunk. -/
def res6000 : BatchResult := ⟨0, 6000, 0, 0, attribErrs10, ["DESCONHECIDO"], []⟩

theorem batch6000 :
    process_transacional_batch storeVazia (List.replicate 6000 dtoSemAgente) [] false
      = BatchOut.ok res6000 stD := by
  unfold process_transacional_batch
  dsimp only
  rw [stage6000]
  rw [transFold_err ((_flush_new_dims storeVazia (_build_dim_cache storeVazia)
      stagedNP.newCols stagedNP.newCanais stagedNP.newStatus).2) []
      dtoSemAgente attributeErrTurno (by rfl) 6000 ⟨1, 0, 0, 0, [], [], []⟩]
  rfl

theorem flushChunkTrans_ok (failAt : Nat → Bool) (protos : List String) (acc : LoopAcc)
    (res : BatchResult) (st' : Store) (h : ¬ acc.chunkTrans = [])
    (h2 : process_transacional_batch acc.st acc.chunkTrans protos (failAt acc.flushIdx)
      = BatchOut.ok res st') :
    flushChunkTrans failAt protos acc
      = ({ acc with
           st := st'
           flushIdx := acc.flushIdx + 1
           totalSuccess := acc.totalSuccess + res.success_count
           totalError := acc.totalError + res.error_count
           totalDuplicados := acc.totalDuplicados + res.duplicate_count
           allErrors := acc.allErrors ++ res.errors
           chunkTrans := [] }, false) := by
  unfold flushChunkTrans
  rw [if_neg h, h2]

/-- The loop state after `k` protocol-less rows (no flush yet). -/
def c2Acc (k : Nat) : LoopAcc :=
  ⟨storeVazia, [], [], List.replicate k dtoSemAgente, [], 0, 0, 0, 0, 0, [], k + 1⟩

theorem c2Step (k : Nat) (hk : k + 1 < 6000) :
    uploadRowStep agora failAtC false true false none [] (c2Acc k) omniRowNP
      = c2Acc (k + 1) := by
  unfold uploadRowStep
  dsimp only
  rw [parse_omniRowNP]
  dsimp only
  rw [show dtoSemAgente.protocolo = none from rfl]
  dsimp only
  rw [show (c2Acc k).chunkTrans = List.replicate k dtoSemAgente from rfl,
    ← List.replicate_succ']
  rw [if_neg (by
    simp only [c2Acc, CHUNK_SIZE, List.length_replicate, List.length_nil, not_or, not_le]
    omega)]
  rfl

theorem c2Fold (n : Nat) :
    ∀ k : Nat, k + n + 1 ≤ 6000 →
      (List.replicate n omniRowNP).foldl
        (uploadRowStep agora failAtC false true false none []) (c2Acc k) = c2Acc (k + n) := by
  induction n with
  | zero =>
    intro k h
    rw [Nat.add_zero]
    rfl
  | succ m ih =>
    intro k h
    rw [List.replicate_succ, List.foldl_cons, c2Step k (by omega), ih (k + 1) (by omega)]
    congr 1
    omega

/-- The loop state right after the in-loop flush of the 6000th row. -/
def c2AccB : LoopAcc :=
  ⟨stD, [], [], [], [], 1, 0, 6000, 0, 0, attribErrs10, 6001⟩

/-- The full chunk as the in-loop flush of the 6000th row sees it. -/
def c2AccFull : LoopAcc :=
  ⟨storeVazia, [], [], List.replicate 6000 dtoSemAgente, [], 0, 0, 0, 0, 0, [], 6000⟩

theorem c2FlushMid :
    flushChunkTrans failAtC [] c2AccFull
      = (⟨stD, [], [], [], [], 1, 0, 6000, 0, 0, attribErrs10, 6000⟩, false) := by
  rw [flushChunkTrans_ok failAtC [] c2AccFull res6000 stD
    (by
      intro hx
      have h2 : (List.replicate 6000 dtoSemAgente).length = 0 := by
        rw [show (c2AccFull.chunkTrans : List AtendimentoTransacionalImportSchema)
            = List.replicate 6000 dtoSemAgente from rfl] at hx
        rw [hx]
        rfl
      rw [List.length_replicate] at h2
      exact absurd h2 (by decide))
    batch6000]
  rfl

theorem c2StepFlush :
    uploadRowStep agora failAtC false true false none [] (c2Acc 5999) omniRowNP
      = c2AccB := by
  unfold uploadRowStep
  dsimp only
  rw [parse_omniRowNP]
  dsimp only
  rw [show dtoSemAgente.protocolo = none from rfl]
  dsimp only
  rw [show (c2Acc 5999).chunkTrans = List.replicate 5999 dtoSemAgente from rfl,
    ← List.replicate_succ']
  rw [if_pos (by
    simp only [c2Acc, CHUNK_SIZE, List.length_replicate, List.length_nil]
    left
    omega)]
  rw [if_neg (show ¬false = true by decide)]
  rw [show ({ c2Acc 5999 with
      chunkTrans := List.replicate (5999 + 1) dtoSemAgente } : LoopAcc) = c2AccFull from rfl]
  rw [c2FlushMid]
  rfl

/-- The loop state after the 6001st row (one pending row, one commit done). -/
def c2AccC : LoopAcc :=
  ⟨stD, [], [], [dtoSemAgente], [], 1, 0, 6000, 0, 0, attribErrs10, 6002⟩

theorem c2StepLast :
    uploadRowStep agora failAtC false true false none [] c2AccB omniRowNP = c2AccC := by
  unfold uploadRowStep
  dsimp only
  rw [parse_omniRowNP]
  dsimp only
  rw [show dtoSemAgente.protocolo = none from rfl]
  dsimp only
  rw [if_neg (by
    simp only [c2AccB, CHUNK_SIZE, List.length_append, List.length_cons, List.length_nil,
      not_or, not_le]
    omega)]
  rfl

theorem c2FoldAll :
    (List.replicate 6001 omniRowNP).foldl
      (uploadRowStep agora failAtC false true false none [])
      ⟨storeVazia, [], [], [], [], 0, 0, 0, 0, 0, [], 1⟩ = c2AccC := by
  have hsplit : List.replicate 6001 omniRowNP
      = (List.replicate 5999 omniRowNP ++ [omniRowNP]) ++ [omniRowNP] := by
    rw [← List.replicate_succ', ← List.replicate_succ']
  rw [hsplit, List.foldl_append, List.foldl_append]
  rw [show (⟨storeVazia, [], [], [], [], 0, 0, 0, 0, 0, [], 1⟩ : LoopAcc) = c2Acc 0 from rfl]
  rw [c2Fold 5999 0 (by omega)]
  rw [show c2Acc (0 + 5999) = c2Acc 5999 from rfl]
  simp only [List.foldl_cons, List.foldl_nil]
  rw [c2StepFlush, c2StepLast]

/-- The store the failed multi-chunk upload leaves behind: the first
chunk's committed dimensions persist, no fact does, and the ledger record
is marked error. -/
def stErrC2 : Store :=
  ⟨[⟨1, "Desconhecido", some "SAC", none⟩], [⟨1, "WhatsApp"⟩], [⟨1, "Desconhecido"⟩], [], [],
    [⟨0, "planilha.csv", "hash0", some "error", none, some agora, some erroLoteTrans,
      none, none⟩],
    2, 2, 2⟩

/-- C2 counterexample: a 6001-row transactional file is NOT processed
atomically.  The in-loop flush of the 6000th row commits (failure schedule:
first commit succeeds, second fails) and persists the staged dimension
rows; the final flush of the remaining row then fails, the endpoint answers
500 and the ledger record is marked error — but the first chunk's committed
writes survive: starting from an empty store, the employee "Desconhecido"
and channel "WhatsApp" rows remain persisted after the failure, so the
claimed whole-file rollback does not happen. -/
theorem upload_multichunk_nao_atomico :
    uploadProcessStage hoje agora failAtC storeVazia 0 omniHeaders
        (List.replicate 6001 omniRowNP) none hoje
      = UploadOutcome.serverError stErrC2 ∧
    CHUNK_SIZE < (List.replicate 6001 omniRowNP).length ∧
    failAtC 0 = false ∧
    failAtC 1 = true ∧
    storeVazia.colaboradores = [] ∧
    storeVazia.canais = [] ∧
    stErrC2.colaboradores = [⟨1, "Desconhecido", some "SAC", none⟩] ∧
    stErrC2.canais = [⟨1, "WhatsApp"⟩] ∧
    stErrC2.fatos = [] ∧
    stErrC2.uploads = [⟨0, "planilha.csv", "hash0", some "error", none, some agora,
      some erroLoteTrans, none, none⟩] := by
  have hner : ¬ List.replicate 6001 omniRowNP = [] := by
    intro hx
    have h2 := congrArg List.length hx
    rw [List.length_replicate] at h2
    exact absurd h2 (by decide)
  have hvalLit : pre_validar_planilha hoje (List.replicate 6001 omniRowNP) false true false
      = [] := by
    unfold pre_validar_planilha
    rw [if_neg (show ¬false = true by decide)]
    exact preValidarAux_replicate hoje true false omniRowNP rfl 6001 1
  have hvalC : pre_validar_planilha hoje (List.replicate 6001 omniRowNP)
      (detect_format omniHeaders).1 (detect_format omniHeaders).2.1
      (detect_format omniHeaders).2.2 = [] := hvalLit
  have hfm : (List.replicate 6001 omniRowNP).filterMap (fun row =>
      if pyStrip
          (match rowOrNone row "Número do Protocolo" with
           | some v => v
           | none => rowOr row "Protocolo" "") ≠ "" then
        some (pyStrip
          (match rowOrNone row "Número do Protocolo" with
           | some v => v
           | none => rowOr row "Protocolo" ""))
      else none) = [] := filterMap_replicate_none _ omniRowNP (by rfl) 6001
  have hprotosC : protosOf storeVazia (List.replicate 6001 omniRowNP) = [] := by
    unfold protosOf
    rw [if_neg (not_not_intro hfm)]
  refine ⟨?_, by rw [List.length_replicate]; decide, rfl, rfl, rfl, rfl, rfl, rfl, rfl, rfl⟩
  unfold uploadProcessStage
  dsimp only
  rw [if_neg hner]
  rw [if_neg (by decide)]
  rw [if_neg (by decide)]
  dsimp only
  rw [if_neg (by decide)]
  rw [if_neg (not_not_intro hvalC)]
  rw [protosOf_spec storeVazia (List.replicate 6001 omniRowNP)]
  rw [hprotosC]
  rw [if_neg (show ¬(detect_format omniHeaders).1 = true by decide)]
  rw [show detect_format omniHeaders = (false, true, false) from by decide]
  dsimp only
  rw [c2FoldAll]
  rw [flushChunkTrans_raised failAtC [] c2AccC (by decide) rfl]
  dsimp only
  rw [if_pos (show (true : Bool) = true from rfl)]
  rfl

/-- C2 witness: the amended single-chunk guarantee at a concrete run — a
1-row transactional file against the dimension-filled store with the
storage failing at once: facts and dimensions are untouched and the
server-error store is exactly the error-marked ledger update. -/
theorem upload_unichunk_atomico_witness :
    ((outcomeStore (uploadProcessStage hoje agora (fun _ => true) storeComDims 0 omniHeaders
        [omniRow1] none hoje)).fatos = storeComDims.fatos) ∧
    ((outcomeStore (uploadProcessStage hoje agora (fun _ => true) storeComDims 0 omniHeaders
        [omniRow1] none hoje)).colaboradores = storeComDims.colaboradores) ∧
    (∀ st', uploadProcessStage hoje agora (fun _ => true) storeComDims 0 omniHeaders
        [omniRow1] none hoje = UploadOutcome.serverError st' →
      st' = updateUpload storeComDims 0 (fun u =>
        { u with
          status := some "error"
          processed_at := some agora
          error := some erroLoteTrans })) := by
  have h := upload_unichunk_atomico hoje agora (fun _ => true) storeComDims 0 [omniRow1]
    none hoje (by decide) rfl
  exact ⟨h.1.2.2.2.1, h.1.1, h.2⟩

/-! ## C10 — missing or blank agent name (both transactional branches) -/

/-- A ligação row with every recognized column present (blank cells are
empty strings). -/
def mkLigRow (fila dataIn agente statusv proto sentido esp atd av1 : String) : Row :=
  [("Fila", fila), ("Data de início", dataIn), ("Agente", agente), ("Status", statusv),
   ("Protocolo", proto), ("Sentido", sentido), ("Espera", esp), ("Atendimento", atd),
   ("Avaliação 1", av1)]

/-- The parse outcome KIND of a ligação row depends only on the queue,
timestamp and duration cells — not on the agent-name cell. -/
theorem rowKind_parse_lig (now : PyDateTime) (ref : Option PyDate) (row1 row2 : Row)
    (hf : rowOr row1 "Fila" "" = rowOr row2 "Fila" "")
    (hd : rowOr row1 "Data de início" "" = rowOr row2 "Data de início" "")
    (hesp : rowOr row1 "Espera" "" = rowOr row2 "Espera" "")
    (hat : rowOr row1 "Atendimento" "" = rowOr row2 "Atendimento" "") :
    rowKindOf (parse_row_to_dto now row1 false false true ref)
      = rowKindOf (parse_row_to_dto now row2 false false true ref) := by
  unfold parse_row_to_dto
  rw [hf, hd, hesp, hat]
  simp only [Bool.false_eq_true, if_false, eq_self_iff_true, if_true]
  split
  · rfl
  · split
    · rfl
    · unfold validateTransSchema
      dsimp only
      split
      · rfl
      · rfl

/-- Whenever a ligação row parses to a transactional DTO, the stored
employee name is `clean_agent_name` of the (defaulted) agent cell. -/
theorem parse_lig_nome (now : PyDateTime) (ref : Option PyDate) (row : Row)
    (d : AtendimentoTransacionalImportSchema)
    (h : parse_row_to_dto now row false false true ref
          = Except.ok (some (ParsedDto.trans d))) :
    d.colaborador_nome
      = clean_agent_name (pyStrip (rowOr row "Agente" "Desconhecido")) := by
  unfold parse_row_to_dto at h
  simp only [Bool.false_eq_true, if_false, eq_self_iff_true, if_true] at h
  split at h
  · exact absurd h (by simp)
  · split at h
    · exact absurd h (by simp)
    · unfold validateTransSchema at h
      dsimp only at h
      split at h
      · dsimp only [Except.map] at h
        injection h with h1
        injection h1 with h2
        injection h2 with h3
        rw [← h3]
      · exact absurd h (by simp [Except.map])

/-- A ligação row with no agent cell (and no queue, status or durations). -/
def ligRowNP : Row := [("Data de início", "15/03/2024 14:30:00")]

/-- The DTO the agent-less ligação row parses to: the synthetic
"DESCONHECIDO" employee. -/
def dtoSemAgenteLig : AtendimentoTransacionalImportSchema :=
  ⟨⟨2024, 3, 15, 14, 30, 0⟩, "DESCONHECIDO", none, "Ligação", "Desconhecido",
    none, none, 0, 0, none, none⟩

/-- C10: HALF TRUE, half refuted.  A transactional row (omnichannel or
ligação) with a missing or blank agent-name cell is indeed neither skipped
nor rejected on that account: the parse-outcome kind never depends on the
agent cell, and the default "Desconhecido" plus `clean_agent_name` (which
maps the empty string to the placeholder) yield
`colaborador_nome = "DESCONHECIDO"` in the parsed record, in both branches.
But such rows are NOT "ingested … rather than producing an error": like
every transactional row, the batch writer's `data.turno` read raises
`AttributeError` (the pydantic schema declares no `turno` field), so the
parsed DESCONHECIDO row is counted as a per-row error and no Interaction
Fact is written — shown here on a store already holding the synthetic
employee and both other dimensions. -/
theorem agente_ausente_vira_desconhecido :
    (∀ (now : PyDateTime) (ref : Option PyDate) (e dI hI a s p te ta n1 n2 : String),
        rowKindOf (parse_row_to_dto now (mkOmniRow e dI hI a s p te ta n1 n2)
            false true false ref)
          = rowKindOf (parse_row_to_dto now (mkOmniRow e dI hI "" s p te ta n1 n2)
              false true false ref)) ∧
    (∀ (now : PyDateTime) (ref : Option PyDate) (f dI a s p sen esp atd av1 : String),
        rowKindOf (parse_row_to_dto now (mkLigRow f dI a s p sen esp atd av1)
            false false true ref)
          = rowKindOf (parse_row_to_dto now (mkLigRow f dI "" s p sen esp atd av1)
              false false true ref)) ∧
    (∀ (now : PyDateTime) (ref : Option PyDate) (row : Row)
        (d : AtendimentoTransacionalImportSchema),
        parse_row_to_dto now row false true false ref
            = Except.ok (some (ParsedDto.trans d)) →
        (rowGet? row "Nome do Atendente" = none ∨ rowGet? row "Nome do Atendente" = some "") →
        d.colaborador_nome = "DESCONHECIDO") ∧
    (∀ (now : PyDateTime) (ref : Option PyDate) (row : Row)
        (d : AtendimentoTransacionalImportSchema),
        parse_row_to_dto now row false false true ref
            = Except.ok (some (ParsedDto.trans d)) →
        (rowGet? row "Agente" = none ∨ rowGet? row "Agente" = some "") →
        d.colaborador_nome = "DESCONHECIDO") ∧
    clean_agent_name "" = "Desconhecido" ∧
    parse_row_to_dto agora omniRowNP false true false none
      = Except.ok (some (ParsedDto.trans dtoSemAgente)) ∧
    parse_row_to_dto agora ligRowNP false false true none
      = Except.ok (some (ParsedDto.trans dtoSemAgenteLig)) ∧
    dtoSemAgente.colaborador_nome = "DESCONHECIDO" ∧
    dtoSemAgenteLig.colaborador_nome = "DESCONHECIDO" ∧
    process_transacional_batch stD [dtoSemAgente] [] false
      = BatchOut.ok ⟨0, 1, 0, 0, [(1, attributeErrTurno)], [], []⟩ stD ∧
    stD.fatos = [] := by
  refine ⟨fun now ref e dI hI a s p te ta n1 n2 =>
      rowKind_parse_omni now ref _ _ rfl rfl rfl rfl rfl,
    fun now ref f dI a s p sen esp atd av1 =>
      rowKind_parse_lig now ref _ _ rfl rfl rfl rfl,
    ?_, ?_, by decide, by rfl, by rfl, by rfl, by rfl, by rfl, by rfl⟩
  · intro now ref row d h hag
    rw [parse_omni_nome now ref row d h]
    have hor : rowOr row "Nome do Atendente" "Desconhecido" = "Desconhecido" := by
      rcases hag with h1 | h1 <;> simp [rowOr, h1]
    rw [hor]
    decide
  · intro now ref row d h hag
    rw [parse_lig_nome now ref row d h]
    have hor : rowOr row "Agente" "Desconhecido" = "Desconhecido" := by
      rcases hag with h1 | h1 <;> simp [rowOr, h1]
    rw [hor]
    decide

/-- Witness for C10: the theorem applied to concrete populated and
agent-less rows of both formats. -/
theorem agente_ausente_vira_desconhecido_witness :
    rowKindOf (parse_row_to_dto agora
        (mkOmniRow "" "15/03/2024" "14:30:00" "Agente X" "" "" "" "" "" "")
        false true false none)
      = rowKindOf (parse_row_to_dto agora
          (mkOmniRow "" "15/03/2024" "14:30:00" "" "" "" "" "" "" "")
          false true false none) ∧
    rowKindOf (parse_row_to_dto agora
        (mkLigRow "" "15/03/2024 14:30:00" "Agente Y" "" "" "" "" "" "")
        false false true none)
      = rowKindOf (parse_row_to_dto agora
          (mkLigRow "" "15/03/2024 14:30:00" "" "" "" "" "" "" "")
          false false true none) ∧
    dtoSemAgente.colaborador_nome = "DESCONHECIDO" ∧
    dtoSemAgenteLig.colaborador_nome = "DESCONHECIDO" := by
  refine ⟨agente_ausente_vira_desconhecido.1 agora none "" "15/03/2024" "14:30:00"
      "Agente X" "" "" "" "" "" "",
    agente_ausente_vira_desconhecido.2.1 agora none "" "15/03/2024 14:30:00"
      "Agente Y" "" "" "" "" "" "",
    agente_ausente_vira_desconhecido.2.2.1 agora none omniRowNP dtoSemAgente
      (by rfl) (by decide),
    agente_ausente_vira_desconhecido.2.2.2.1 agora none ligRowNP dtoSemAgenteLig
      (by rfl) (by decide)⟩
